import Mathlib

/-!
Verification of the google_cpm charging arbiter (google_cpm.c) and the
max77779 scratch-space driver (max77779_sp.c).

The driver state is embedded as a Lean structure; every external
collaborator call (power-supply get/set property, votable cast, regmap
I/O, the external PPS library in google_dc_pps.c) is modelled by an
oracle argument giving the call's result.  A collaborator set-property
call either succeeds (returns 0, the modelled device state changes) or
fails (returns a negative errno, the modelled device state does not
change); failing calls are modelled as returning -EIOERR unless the source
distinguishes the code.
-/

set_option linter.unusedVariables false

namespace GCPM

/-! ### Error codes (Linux errno values; the driver returns their negations) -/

abbrev ENOENT : Int := 2
abbrev EIOERR : Int := 5
abbrev EAGAIN : Int := 11
abbrev EBUSY : Int := 16
abbrev ENODEV : Int := 19
abbrev EINVAL : Int := 22
abbrev ERANGE : Int := 34

/-! ### Constants from google_cpm.c -/

abbrev GCPM_DEFAULT_CHARGER : Int := 0
abbrev GCPM_INDEX_DC_ENABLE : Int := 1

abbrev DC_DISABLED : Int := -1
abbrev DC_IDLE : Int := 0
abbrev DC_ENABLE : Int := 1
abbrev DC_RUNNING : Int := 2
abbrev DC_ENABLE_PASSTHROUGH : Int := 3
abbrev DC_PASSTHROUGH : Int := 4

abbrev DC_ENABLE_DELAY_MS : Int := 5000
abbrev DC_RUN_DELAY_MS : Int := 9000
abbrev PPS_ERROR_RETRY_MS : Int := 1000
abbrev DC_ERROR_RETRY_MS : Int := PPS_ERROR_RETRY_MS
abbrev PPS_PROG_TIMEOUT_S : Int := 10
abbrev PPS_PROG_RETRY_MS : Int := 5000
abbrev PPS_ACTIVE_RETRY_MS : Int := 1500
abbrev PPS_ACTIVE_TIMEOUT_S : Int := 25

abbrev PPS_INDEX_TCPM : Int := 1
abbrev PPS_INDEX_WLC : Int := 2
abbrev PPS_INDEX_MAX : Int := 2

/-- Stage of a PPS negotiator session (enum in google_dc_pps.h, which is not
under src/; google_cpm.c only compares stages for equality, so the stage is
embedded as an inductive rather than by its numeric value). -/
inductive PpsStage
  | PPS_NOTSUPP
  | PPS_DISABLED
  | PPS_NONE
  | PPS_AVAILABLE
  | PPS_ACTIVE
deriving DecidableEq, Repr

/-- The externally visible charging state of one registered charger device:
its POWER_SUPPLY_PROP_ONLINE flag and its GBMS_PROP_CHARGING_ENABLED flag,
as last set through the modelled set-property calls. -/
structure ChgDev where
  online : Bool
  charging_enabled : Bool
deriving DecidableEq, Repr

/-- The `pd_pps_data` fields of one PPS session that google_cpm.c reads or
writes: whether a pps power supply is attached and the negotiation stage. -/
structure PpsData where
  pps_psy : Bool
  stage : PpsStage
deriving DecidableEq, Repr

/-- The mutable fields of `struct gcpm_drv` (google_cpm.c) used by the
modelled operations.  `devs` is `chg_psy_avail`: `none` models a NULL entry
(charger not yet discovered); a `some` entry carries the modelled device
state.  `dc_vote` is the GCPM vote cast on the charger-mode votable, and
`gpio_value` the current dc-enable gpio level. -/
structure Gcpm where
  devs : List (Option ChgDev)
  chg_psy_count : Int
  chg_psy_active : Int
  force_active : Int
  dc_state : Int
  dc_index : Int
  pps_index : Int
  dc_start_time : Int
  cc_max : Int
  fv_uv : Int
  out_ua : Int
  out_uv : Int
  dc_limit_vbatt_low : Int
  dc_limit_vbatt_min : Int
  dc_limit_vbatt_high : Int
  dc_limit_vbatt_max : Int
  dc_limit_demand : Int
  taper_control : Bool
  new_dc_limit : Bool
  force_pps : Bool
  init_complete : Bool
  resume_complete : Bool
  dc_init_complete : Bool
  dcen_gpio : Int
  dcen_gpio_default : Bool
  gpio_value : Bool
  dc_vote : Bool
  tcpm_pps_data : PpsData
  wlc_pps_data : PpsData

/-- `chg_psy_avail[i]`, with a negative index yielding no device. -/
def getDev (g : Gcpm) (i : Int) : Option ChgDev :=
  if i < 0 then none else g.devs.getD i.toNat none

/-- Update the device state at index `i` (used for the effect of a successful
set-property call on `chg_psy_avail[i]`). -/
def updList (l : List (Option ChgDev)) (i : Int) (f : ChgDev → ChgDev) :
    List (Option ChgDev) :=
  if i < 0 then l else l.set i.toNat ((l.getD i.toNat none).map f)

def updDev (g : Gcpm) (i : Int) (f : ChgDev → ChgDev) : Gcpm :=
  { g with devs := updList g.devs i f }

/-- `gcpm_chg_get_default` -/
def gcpm_chg_get_default (g : Gcpm) : Option ChgDev := getDev g 0

/-- `gcpm_chg_get_active` -/
def gcpm_chg_get_active (g : Gcpm) : Option ChgDev :=
  if g.chg_psy_active = -1 then none else getDev g g.chg_psy_active

/-- `batt_demand = (cc_max / 1000) * (fv_uv / 1000)` in `gcpm_chg_select`. -/
def gcpm_batt_demand (g : Gcpm) : Int := (g.cc_max / 1000) * (g.fv_uv / 1000)

/-- The index chosen by the demand comparison in `gcpm_chg_select` before the
voltage limits are applied. -/
def gcpm_demand_index (g : Gcpm) : Int :=
  if g.dc_limit_demand < gcpm_batt_demand g then GCPM_INDEX_DC_ENABLE
  else GCPM_DEFAULT_CHARGER

/-- The hard voltage-limit ladder of `gcpm_chg_select` (the chain of
`else if` on vbatt_min / vbatt_high / vbatt_max in google_cpm.c:431-440). -/
def gcpm_vbatt_index (g : Gcpm) (vbatt : Int) : Int :=
  if g.dc_limit_vbatt_min ≠ 0 ∧ vbatt < g.dc_limit_vbatt_min then
    (if g.dc_index = GCPM_DEFAULT_CHARGER then -EAGAIN else g.dc_index)
  else if g.dc_limit_vbatt_high ≠ 0 ∧ g.dc_limit_vbatt_high < vbatt then
    g.dc_index
  else if g.dc_limit_vbatt_max ≠ 0 ∧ g.dc_limit_vbatt_max < vbatt then
    GCPM_DEFAULT_CHARGER
  else if g.dc_limit_vbatt_min ≠ 0 ∧ g.dc_limit_vbatt_min < vbatt then
    GCPM_INDEX_DC_ENABLE
  else gcpm_demand_index g

/-- The final bounds check `index >= gcpm->chg_psy_count` of
`gcpm_chg_select`. -/
def gcpm_bound_index (g : Gcpm) (index : Int) : Int :=
  if g.chg_psy_count ≤ index then GCPM_DEFAULT_CHARGER else index

/-- Shallow embedding of `gcpm_chg_select` (google_cpm.c:389).  `vbatt` is
the result of the POWER_SUPPLY_PROP_VOLTAGE_NOW read on the default charger;
a negative value models a failed read. -/
def gcpm_chg_select (g : Gcpm) (vbatt : Int) : Int :=
  if 0 ≤ g.force_active then g.force_active
  else if g.cc_max ≤ 0 ∨ g.fv_uv ≤ 0 then GCPM_DEFAULT_CHARGER
  else if (gcpm_chg_get_default g).isSome ∧
      (g.dc_limit_vbatt_max ≠ 0 ∨ g.dc_limit_vbatt_min ≠ 0) then
    if vbatt < 0 then g.dc_index
    else if g.dc_limit_vbatt_low ≠ 0 ∧ vbatt < g.dc_limit_vbatt_low then
      -EAGAIN
    else gcpm_bound_index g (gcpm_vbatt_index g vbatt)
  else gcpm_bound_index g (gcpm_demand_index g)

/-- A configuration used to evaluate the selection policy on concrete
readings: two chargers (default wired, DC-capable), default thresholds of
google_cpm.c, previous selection the DC index. -/
def gSelDC : Gcpm :=
  { devs := [some ⟨true, true⟩, some ⟨false, false⟩]
    chg_psy_count := 2, chg_psy_active := 0, force_active := -1
    dc_state := DC_PASSTHROUGH, dc_index := 1, pps_index := 1
    dc_start_time := 0
    cc_max := 3000000, fv_uv := 4400000, out_ua := -1, out_uv := -1
    dc_limit_vbatt_low := 3400000, dc_limit_vbatt_min := 3600000
    dc_limit_vbatt_high := 4350000, dc_limit_vbatt_max := 4400000
    dc_limit_demand := 5000000
    taper_control := false, new_dc_limit := false, force_pps := false
    init_complete := true, resume_complete := true, dc_init_complete := true
    dcen_gpio := -1, dcen_gpio_default := false, gpio_value := false
    dc_vote := true
    tcpm_pps_data := ⟨true, .PPS_ACTIVE⟩
    wlc_pps_data := ⟨true, .PPS_NONE⟩ }

/-- Same configuration with the previous selection being the default index. -/
def gSelDefault : Gcpm :=
  { gSelDC with dc_index := 0, pps_index := 0, dc_state := DC_IDLE
                dc_vote := false
                tcpm_pps_data := ⟨true, .PPS_NONE⟩ }


/-- Claim C5: with configured thresholds 0 < vbatt_low < vbatt_min, a reading
below vbatt_low yields retry-later (-EAGAIN); a reading in
[vbatt_low, vbatt_min) keeps the DC index when the previous selection was the
DC index and yields retry-later when the previous selection was the default
index. -/
theorem select_floor_hysteresis (g : Gcpm) (vbatt : Int)
    (hforce : g.force_active < 0) (hcc : 0 < g.cc_max) (hfv : 0 < g.fv_uv)
    (hdef : (gcpm_chg_get_default g).isSome = true)
    (hlow0 : 0 < g.dc_limit_vbatt_low)
    (hlm : g.dc_limit_vbatt_low < g.dc_limit_vbatt_min)
    (hcount : 1 < g.chg_psy_count) (hv : 0 ≤ vbatt) :
    (vbatt < g.dc_limit_vbatt_low → gcpm_chg_select g vbatt = -EAGAIN) ∧
    (g.dc_limit_vbatt_low ≤ vbatt → vbatt < g.dc_limit_vbatt_min →
      g.dc_index = GCPM_INDEX_DC_ENABLE →
      gcpm_chg_select g vbatt = GCPM_INDEX_DC_ENABLE) ∧
    (g.dc_limit_vbatt_low ≤ vbatt → vbatt < g.dc_limit_vbatt_min →
      g.dc_index = GCPM_DEFAULT_CHARGER → gcpm_chg_select g vbatt = -EAGAIN) := by
  unfold gcpm_chg_select
  simp only [hdef, true_and]
  unfold gcpm_bound_index gcpm_vbatt_index gcpm_demand_index
    GCPM_DEFAULT_CHARGER GCPM_INDEX_DC_ENABLE EAGAIN
  omega

/-- Claim C5 witness: the floor-hysteresis theorem evaluated at the default
threshold configuration, a 3550000uV reading and previous selection DC. -/
theorem select_floor_hysteresis_witness :
    gcpm_chg_select gSelDC 3550000 = GCPM_INDEX_DC_ENABLE :=
  (select_floor_hysteresis gSelDC 3550000 (by decide) (by decide) (by decide)
    (by decide) (by decide) (by decide) (by decide) (by decide)).2.1
    (by decide) (by decide) (by decide)

/-- Claim C3 counterexample: with vbatt_high=4350000 < vbatt_max=4400000, a
reading of 4380000 (inside (vbatt_high, vbatt_max]) with previous selection
the default index returns the default index, while the claim requires the DC
index; and a reading of 4420000 (above vbatt_max) with previous selection the
DC index keeps the DC index, while the claim requires the default index
regardless of the previous selection. -/
theorem select_ceiling_counterexample :
    gcpm_chg_select gSelDefault 4380000 = GCPM_DEFAULT_CHARGER ∧
    gcpm_chg_select gSelDefault 4380000 ≠ GCPM_INDEX_DC_ENABLE ∧
    gcpm_chg_select gSelDC 4420000 = GCPM_INDEX_DC_ENABLE ∧
    gcpm_chg_select gSelDC 4420000 ≠ GCPM_DEFAULT_CHARGER := by decide

/-- Claim C3 amended: near the ceiling the rule for `vbatt > vbatt_high`
keeps the previous selection (dc_index) whatever it was, and shadows the
vbatt_max rule, so above vbatt_max the default index results only when the
previous selection was already the default; the DC index is returned only for
readings in (vbatt_min, vbatt_high]. -/
theorem select_ceiling_amended (g : Gcpm) (vbatt : Int)
    (hforce : g.force_active < 0) (hcc : 0 < g.cc_max) (hfv : 0 < g.fv_uv)
    (hdef : (gcpm_chg_get_default g).isSome = true)
    (hmin0 : 0 < g.dc_limit_vbatt_min)
    (hlowmin : g.dc_limit_vbatt_low ≤ g.dc_limit_vbatt_min)
    (hmh : g.dc_limit_vbatt_min ≤ g.dc_limit_vbatt_high)
    (hhm : g.dc_limit_vbatt_high < g.dc_limit_vbatt_max)
    (hcount : 1 < g.chg_psy_count)
    (hidx : g.dc_index = GCPM_DEFAULT_CHARGER ∨
      g.dc_index = GCPM_INDEX_DC_ENABLE) :
    (g.dc_limit_vbatt_high < vbatt → gcpm_chg_select g vbatt = g.dc_index) ∧
    (g.dc_limit_vbatt_min < vbatt → vbatt ≤ g.dc_limit_vbatt_high →
      gcpm_chg_select g vbatt = GCPM_INDEX_DC_ENABLE) := by
  simp only [GCPM_DEFAULT_CHARGER, GCPM_INDEX_DC_ENABLE] at hidx
  unfold gcpm_chg_select
  simp only [hdef, true_and]
  unfold gcpm_bound_index gcpm_vbatt_index gcpm_demand_index
    GCPM_DEFAULT_CHARGER GCPM_INDEX_DC_ENABLE EAGAIN
  omega

/-- Claim C3 amended witness: the amended ceiling theorem evaluated at the
default thresholds with previous selection DC and a 4380000uV reading. -/
theorem select_ceiling_amended_witness :
    gcpm_chg_select gSelDC 4380000 = gSelDC.dc_index :=
  (select_ceiling_amended gSelDC 4380000 (by decide) (by decide) (by decide)
    (by decide) (by decide) (by decide) (by decide) (by decide) (by decide)
    (by decide)).1 (by decide)


/-! ### Collaborator set-property events

Each GPSY_SET_PROP call issued to a charger device, each charger-mode vote
and each dc-enable gpio write is logged as an event, so ordering claims can
be read off the event list of an operation. -/

inductive Ev
  | SetChargingEnabled (i : Int) (v : Int)
  | SetOnlineProp (i : Int) (v : Int)
  | SetFvUv (i : Int) (v : Int)
  | SetCcMax (i : Int) (v : Int)
  | SetCurrentMax (i : Int) (v : Int)
  | ModeVote (enabled : Bool)
  | GpioSet (v : Bool)
deriving DecidableEq, Repr

/-- `gcpm_chg_ping` (google_cpm.c:171): best-effort ONLINE=0 nudge; always
returns 0.  The unused `online` argument mirrors the C signature.  `ok`
models the set-property call succeeding. -/
def gcpm_chg_ping (g : Gcpm) (index : Int) (online : Bool) (ok : Bool) :
    Int × Gcpm × List Ev :=
  match getDev g index with
  | none => (0, g, [])
  | some _ =>
    (0, if ok then updDev g index (fun d => { d with online := false }) else g,
     [Ev.SetOnlineProp index 0])

/-- `gcpm_chg_offline` (google_cpm.c:192): disable charging on the active
charger, then mark it not-online, then clear `chg_psy_active`; each step only
if the previous succeeded. -/
def gcpm_chg_offline (g : Gcpm) (okEna okOnl : Bool) : Int × Gcpm × List Ev :=
  match gcpm_chg_get_active g with
  | none => (0, g, [])
  | some _ =>
    if okEna then
      if okOnl then
        (0,
         { updDev
             (updDev g g.chg_psy_active
               (fun d => { d with charging_enabled := false }))
             g.chg_psy_active (fun d => { d with online := false }) with
           chg_psy_active := -1 },
         [Ev.SetChargingEnabled g.chg_psy_active 0,
          Ev.SetOnlineProp g.chg_psy_active 0])
      else
        (-EIOERR,
         updDev g g.chg_psy_active
           (fun d => { d with charging_enabled := false }),
         [Ev.SetChargingEnabled g.chg_psy_active 0,
          Ev.SetOnlineProp g.chg_psy_active 0])
    else (-EIOERR, g, [Ev.SetChargingEnabled g.chg_psy_active 0])

/-- `gcpm_chg_set_online` (google_cpm.c:214): bounds check, no-op when the
index is already active, -EINVAL when no device is registered there,
offline the current charger, then mark the new one online. -/
def gcpm_chg_set_online (g : Gcpm) (index : Int) (okEna okOnl okNew : Bool) :
    Int × Gcpm × List Ev :=
  if index < 0 ∨ g.chg_psy_count ≤ index then (-ERANGE, g, [])
  else if index = g.chg_psy_active then (0, g, [])
  else
    match getDev g index with
    | none => (-EINVAL, g, [])
    | some _ =>
      match gcpm_chg_offline g okEna okOnl with
      | (ret, g1, ev1) =>
        if ret < 0 then (-EIOERR, g1, ev1)
        else if okNew then
          (0,
           { updDev g1 index (fun d => { d with online := true }) with
             chg_psy_active := index },
           ev1 ++ [Ev.SetOnlineProp index 1])
        else (-EIOERR, g1, ev1 ++ [Ev.SetOnlineProp index 1])

/-- `gcpm_dc_enable` (google_cpm.c:267): cast the GCPM charger-mode vote.
`ok` models finding the votable and the cast succeeding. -/
def gcpm_dc_enable (g : Gcpm) (enabled : Bool) (ok : Bool) :
    Int × Gcpm × List Ev :=
  if ok then (0, { g with dc_vote := enabled }, [Ev.ModeVote enabled])
  else (-ENODEV, g, [])

/-- The dc-enable gpio write at the top of `gcpm_dc_stop`. -/
def gcpm_gpio_set (g : Gcpm) (v : Bool) : Gcpm × List Ev :=
  if 0 ≤ g.dcen_gpio ∧ g.dcen_gpio_default = false
  then ({ g with gpio_value := v }, [Ev.GpioSet v]) else (g, [])

/-- The switch statement of `gcpm_dc_stop` (google_cpm.c:296-319), with the
C fall-through made explicit. -/
def gcpm_dc_stop_body (g : Gcpm) (final_state : Int)
    (okVote okEna okOnl okNew : Bool) : Int × Gcpm × List Ev :=
  if g.dc_state = DC_RUNNING ∨ g.dc_state = DC_PASSTHROUGH then
    match gcpm_dc_enable g false okVote with
    | (r1, g1, e1) =>
      if r1 < 0 then (r1, g1, e1)
      else
        match gcpm_chg_set_online { g1 with dc_state := DC_ENABLE } 0
            okEna okOnl okNew with
        | (r2, g2, e2) =>
          if r2 < 0 then (r2, g2, e1 ++ e2)
          else (0, { g2 with dc_state := final_state }, e1 ++ e2)
  else if g.dc_state = DC_ENABLE ∨ g.dc_state = DC_ENABLE_PASSTHROUGH then
    match gcpm_chg_set_online g 0 okEna okOnl okNew with
    | (r2, g2, e2) =>
      if r2 < 0 then (r2, g2, e2)
      else (0, { g2 with dc_state := final_state }, e2)
  else (0, { g with dc_state := final_state }, [])

/-- `gcpm_dc_stop` (google_cpm.c:288). -/
def gcpm_dc_stop (g : Gcpm) (final_state : Int)
    (okVote okEna okOnl okNew : Bool) : Int × Gcpm × List Ev :=
  match gcpm_gpio_set g false with
  | (g0, e0) =>
    match gcpm_dc_stop_body g0 final_state okVote okEna okOnl okNew with
    | (r, g1, e1) => (r, g1, e0 ++ e1)

/-- `gcpm_dc_start` (google_cpm.c:325): online the DC charger, then program
float voltage, charge current and input current limit, then raise the gpio
and cast the charger-mode vote; abort on the first failure. -/
def gcpm_dc_start (g : Gcpm) (index : Int)
    (okEna okOnl okNew okFv okCc okIin okVote : Bool) : Int × Gcpm × List Ev :=
  match gcpm_chg_set_online g index okEna okOnl okNew with
  | (r1, g1, e1) =>
    if r1 < 0 then (r1, g1, e1)
    else
      match gcpm_chg_get_active g1 with
      | none => (-ENODEV, g1, e1)
      | some _ =>
        if okFv = false then
          (-EIOERR, g1, e1 ++ [Ev.SetFvUv g1.chg_psy_active g1.fv_uv])
        else if okCc = false then
          (-EIOERR, g1, e1 ++ [Ev.SetFvUv g1.chg_psy_active g1.fv_uv,
                            Ev.SetCcMax g1.chg_psy_active g1.cc_max])
        else if okIin = false then
          (-EIOERR, g1, e1 ++ [Ev.SetFvUv g1.chg_psy_active g1.fv_uv,
                            Ev.SetCcMax g1.chg_psy_active g1.cc_max,
                            Ev.SetCurrentMax g1.chg_psy_active g1.out_ua])
        else
          match gcpm_gpio_set g1 true with
          | (g2, e2) =>
            match gcpm_dc_enable g2 true okVote with
            | (r3, g3, e3) =>
              (if r3 < 0 then r3 else 0, g3,
               e1 ++ [Ev.SetFvUv g1.chg_psy_active g1.fv_uv,
                      Ev.SetCcMax g1.chg_psy_active g1.cc_max,
                      Ev.SetCurrentMax g1.chg_psy_active g1.out_ua]
                 ++ e2 ++ e3)

/-! ### The at-most-one-online invariant (claims C2, C6) -/

def optOnline : Option ChgDev → Bool
  | some d => d.online
  | none => false

/-- Whether the device at (array) position `i` is marked online. -/
def devOnlineAt (g : Gcpm) (i : Nat) : Bool := optOnline (g.devs.getD i none)

/-- Any online device sits at the active index (the inductive invariant). -/
def onlineInv (g : Gcpm) : Prop :=
  ∀ i : Nat, devOnlineAt g i = true → (i : Int) = g.chg_psy_active

/-- At most one charger device is online. -/
def atMostOneOnline (g : Gcpm) : Prop :=
  ∀ i j : Nat, devOnlineAt g i = true → devOnlineAt g j = true → i = j



theorem getD_set_self {α : Type} (l : List α) (n : Nat) (a d : α)
    (h : n < l.length) : (l.set n a).getD n d = a := by
  induction l generalizing n with
  | nil => simp at h
  | cons x xs ih =>
    cases n with
    | zero => rfl
    | succ m => exact ih m (by simpa using h)

theorem getD_set_ne {α : Type} (l : List α) (m n : Nat) (a d : α)
    (h : m ≠ n) : (l.set m a).getD n d = l.getD n d := by
  induction l generalizing m n with
  | nil => rfl
  | cons x xs ih =>
    cases m with
    | zero =>
      cases n with
      | zero => exact absurd rfl h
      | succ k => rfl
    | succ j =>
      cases n with
      | zero => rfl
      | succ k => exact ih j k (by omega)

theorem getD_len_le {α : Type} (l : List α) (n : Nat) (d : α)
    (h : l.length ≤ n) : l.getD n d = d := by
  induction l generalizing n with
  | nil => rfl
  | cons x xs ih =>
    cases n with
    | zero => simp at h
    | succ m => exact ih m (by simpa using h)

theorem set_len_le {α : Type} (l : List α) (n : Nat) (a : α)
    (h : l.length ≤ n) : l.set n a = l := by
  induction l generalizing n with
  | nil => rfl
  | cons x xs ih =>
    cases n with
    | zero => simp at h
    | succ m => simp [List.set, ih m (by simpa using h)]

/-- How a device update changes the per-position online flag. -/
theorem devOnlineAt_updDev (g : Gcpm) (i : Int) (f : ChgDev → ChgDev)
    (j : Nat) :
    devOnlineAt (updDev g i f) j =
      if (j : Int) = i then optOnline ((g.devs.getD j none).map f)
      else devOnlineAt g j := by
  unfold devOnlineAt updDev updList
  dsimp only
  by_cases hi : i < 0
  · rw [if_pos hi, if_neg (by omega)]
  · rw [if_neg hi]
    by_cases hj : (j : Int) = i
    · rw [if_pos hj]
      have hjn : j = i.toNat := by omega
      by_cases hl : j < g.devs.length
      · rw [hjn, getD_set_self _ _ _ _ (by omega)]
      · rw [set_len_le _ _ _ (by omega), getD_len_le _ _ _ (by omega)]
        rfl
    · rw [if_neg hj, getD_set_ne _ _ _ _ _ (by omega)]



theorem optOnline_map_ena (x : Option ChgDev) (c : Bool) :
    optOnline (x.map fun d => { d with charging_enabled := c }) =
      optOnline x := by
  cases x <;> rfl

theorem optOnline_map_online (x : Option ChgDev) (c : Bool) :
    optOnline (x.map fun d => { d with online := c }) = (x.isSome && c) := by
  cases x <;> simp [optOnline]

theorem devOnlineAt_mkActive (x : Gcpm) (v : Int) (j : Nat) :
    devOnlineAt { x with chg_psy_active := v } j = devOnlineAt x j := rfl

/-- The invariant only looks at `devs` and `chg_psy_active`. -/
theorem onlineInv_congr (g g2 : Gcpm) (hd : g2.devs = g.devs)
    (ha : g2.chg_psy_active = g.chg_psy_active) (h : onlineInv g) :
    onlineInv g2 := by
  intro i hi
  rw [ha]
  refine h i ?_
  unfold devOnlineAt at hi ⊢
  rwa [hd] at hi

/-- If no charger is active (or the active slot is empty) the invariant
forces every device offline. -/
theorem no_online_of_get_active_none (g : Gcpm) (h : onlineInv g)
    (hact : gcpm_chg_get_active g = none) : ∀ j, devOnlineAt g j = false := by
  intro j
  by_cases hon : devOnlineAt g j = true
  · exfalso
    have hj := h j hon
    unfold gcpm_chg_get_active at hact
    by_cases h1 : g.chg_psy_active = -1
    · omega
    · rw [if_neg h1] at hact
      unfold getDev at hact
      rw [if_neg (by omega)] at hact
      unfold devOnlineAt at hon
      have hjn : j = g.chg_psy_active.toNat := by omega
      rw [hjn, hact] at hon
      simp [optOnline] at hon
  · simpa using hon

theorem get_active_some_nonneg (g : Gcpm) (d : ChgDev)
    (hact : gcpm_chg_get_active g = some d) : 0 ≤ g.chg_psy_active := by
  unfold gcpm_chg_get_active getDev at hact
  by_cases h1 : g.chg_psy_active = -1
  · simp [h1] at hact
  · rw [if_neg h1] at hact
    by_cases h2 : g.chg_psy_active < 0
    · rw [if_pos h2] at hact; exact absurd hact (by simp)
    · omega

/-- The state after a fully successful `gcpm_chg_offline` on an active
charger. -/
def offlineState (g : Gcpm) : Gcpm :=
  { updDev (updDev g g.chg_psy_active
      (fun d => { d with charging_enabled := false }))
      g.chg_psy_active (fun d => { d with online := false }) with
    chg_psy_active := -1 }

/-- Case equations for `gcpm_chg_offline`. -/
theorem gcpm_chg_offline_none (g : Gcpm) (a b : Bool)
    (hact : gcpm_chg_get_active g = none) :
    gcpm_chg_offline g a b = (0, g, []) := by
  unfold gcpm_chg_offline
  rw [hact]

theorem gcpm_chg_offline_ok (g : Gcpm) (d : ChgDev)
    (hact : gcpm_chg_get_active g = some d) :
    gcpm_chg_offline g true true =
      (0, offlineState g,
       [Ev.SetChargingEnabled g.chg_psy_active 0,
        Ev.SetOnlineProp g.chg_psy_active 0]) := by
  unfold gcpm_chg_offline offlineState
  rw [hact]
  simp

theorem gcpm_chg_offline_ena_fail (g : Gcpm) (b : Bool) (d : ChgDev)
    (hact : gcpm_chg_get_active g = some d) :
    gcpm_chg_offline g false b =
      (-EIOERR, g, [Ev.SetChargingEnabled g.chg_psy_active 0]) := by
  unfold gcpm_chg_offline
  rw [hact]
  simp

theorem gcpm_chg_offline_onl_fail (g : Gcpm) (d : ChgDev)
    (hact : gcpm_chg_get_active g = some d) :
    gcpm_chg_offline g true false =
      (-EIOERR,
       updDev g g.chg_psy_active (fun d => { d with charging_enabled := false }),
       [Ev.SetChargingEnabled g.chg_psy_active 0,
        Ev.SetOnlineProp g.chg_psy_active 0]) := by
  unfold gcpm_chg_offline
  rw [hact]
  simp

/-- After a successful offline of an active charger every device is
offline. -/
theorem offlineState_clear (g : Gcpm) (h : onlineInv g) (d : ChgDev)
    (hact : gcpm_chg_get_active g = some d) :
    ∀ j, devOnlineAt (offlineState g) j = false := by
  intro j
  unfold offlineState
  rw [devOnlineAt_mkActive, devOnlineAt_updDev]
  by_cases hj : (j : Int) = g.chg_psy_active
  · rw [if_pos hj, optOnline_map_online, Bool.and_false]
  · rw [if_neg hj, devOnlineAt_updDev, if_neg hj]
    by_cases hon : devOnlineAt g j = true
    · exact absurd (h j hon) hj
    · simpa using hon

/-- `gcpm_chg_offline` preserves the invariant; on success every device is
offline; the return code is 0 or -EIOERR. -/
theorem gcpm_chg_offline_spec (g : Gcpm) (a b : Bool) (h : onlineInv g) :
    onlineInv (gcpm_chg_offline g a b).2.1 ∧
    ((gcpm_chg_offline g a b).1 = 0 →
      ∀ j, devOnlineAt (gcpm_chg_offline g a b).2.1 j = false) ∧
    ((gcpm_chg_offline g a b).1 = 0 ∨ (gcpm_chg_offline g a b).1 = -EIOERR) := by
  cases hact : gcpm_chg_get_active g with
  | none =>
    rw [gcpm_chg_offline_none g a b hact]
    exact ⟨h, fun _ => no_online_of_get_active_none g h hact, Or.inl rfl⟩
  | some d =>
    cases a with
    | false =>
      rw [gcpm_chg_offline_ena_fail g b d hact]
      exact ⟨h, fun hc => by simp at hc, Or.inr rfl⟩
    | true =>
      cases b with
      | false =>
        rw [gcpm_chg_offline_onl_fail g d hact]
        refine ⟨?_, fun hc => by simp at hc, Or.inr rfl⟩
        intro i hi
        rw [devOnlineAt_updDev] at hi
        by_cases hj : (i : Int) = g.chg_psy_active
        · simpa [updDev] using hj
        · rw [if_neg hj] at hi
          exact h i hi
      | true =>
        rw [gcpm_chg_offline_ok g d hact]
        refine ⟨?_, fun _ => offlineState_clear g h d hact, Or.inl rfl⟩
        intro i hi
        rw [offlineState_clear g h d hact i] at hi
        exact absurd hi (by decide)



/-- Case equations for `gcpm_chg_set_online`. -/
theorem gcpm_chg_set_online_range (g : Gcpm) (i : Int) (a b c : Bool)
    (hr : i < 0 ∨ g.chg_psy_count ≤ i) :
    gcpm_chg_set_online g i a b c = (-ERANGE, g, []) := by
  unfold gcpm_chg_set_online
  rw [if_pos hr]

theorem gcpm_chg_set_online_same (g : Gcpm) (i : Int) (a b c : Bool)
    (hr : ¬(i < 0 ∨ g.chg_psy_count ≤ i)) (hs : i = g.chg_psy_active) :
    gcpm_chg_set_online g i a b c = (0, g, []) := by
  unfold gcpm_chg_set_online
  rw [if_neg hr, if_pos hs]

theorem gcpm_chg_set_online_nodev (g : Gcpm) (i : Int) (a b c : Bool)
    (hr : ¬(i < 0 ∨ g.chg_psy_count ≤ i)) (hs : i ≠ g.chg_psy_active)
    (hd : getDev g i = none) :
    gcpm_chg_set_online g i a b c = (-EINVAL, g, []) := by
  unfold gcpm_chg_set_online
  rw [if_neg hr, if_neg hs, hd]

theorem gcpm_chg_set_online_offline_fail (g : Gcpm) (i : Int) (a b c : Bool)
    (d : ChgDev) (r : Int) (g1 : Gcpm) (e1 : List Ev)
    (hr : ¬(i < 0 ∨ g.chg_psy_count ≤ i)) (hs : i ≠ g.chg_psy_active)
    (hd : getDev g i = some d) (hof : gcpm_chg_offline g a b = (r, g1, e1))
    (hneg : r < 0) :
    gcpm_chg_set_online g i a b c = (-EIOERR, g1, e1) := by
  unfold gcpm_chg_set_online
  rw [if_neg hr, if_neg hs, hd, hof]
  simp [hneg]

theorem gcpm_chg_set_online_ok (g : Gcpm) (i : Int) (a b : Bool)
    (d : ChgDev) (r : Int) (g1 : Gcpm) (e1 : List Ev)
    (hr : ¬(i < 0 ∨ g.chg_psy_count ≤ i)) (hs : i ≠ g.chg_psy_active)
    (hd : getDev g i = some d) (hof : gcpm_chg_offline g a b = (r, g1, e1))
    (hpos : ¬ r < 0) :
    gcpm_chg_set_online g i a b true =
      (0, { updDev g1 i (fun d => { d with online := true }) with
            chg_psy_active := i },
       e1 ++ [Ev.SetOnlineProp i 1]) := by
  unfold gcpm_chg_set_online
  rw [if_neg hr, if_neg hs, hd, hof]
  simp [hpos]

theorem gcpm_chg_set_online_new_fail (g : Gcpm) (i : Int) (a b : Bool)
    (d : ChgDev) (r : Int) (g1 : Gcpm) (e1 : List Ev)
    (hr : ¬(i < 0 ∨ g.chg_psy_count ≤ i)) (hs : i ≠ g.chg_psy_active)
    (hd : getDev g i = some d) (hof : gcpm_chg_offline g a b = (r, g1, e1))
    (hpos : ¬ r < 0) :
    gcpm_chg_set_online g i a b false =
      (-EIOERR, g1, e1 ++ [Ev.SetOnlineProp i 1]) := by
  unfold gcpm_chg_set_online
  rw [if_neg hr, if_neg hs, hd, hof]
  simp [hpos]

/-- `gcpm_chg_set_online` preserves the invariant. -/
theorem gcpm_chg_set_online_inv (g : Gcpm) (i : Int) (a b c : Bool)
    (h : onlineInv g) : onlineInv (gcpm_chg_set_online g i a b c).2.1 := by
  by_cases hr : i < 0 ∨ g.chg_psy_count ≤ i
  · rw [gcpm_chg_set_online_range g i a b c hr]; exact h
  · by_cases hs : i = g.chg_psy_active
    · rw [gcpm_chg_set_online_same g i a b c hr hs]; exact h
    · cases hd : getDev g i with
      | none => rw [gcpm_chg_set_online_nodev g i a b c hr hs hd]; exact h
      | some d =>
        rcases hof : gcpm_chg_offline g a b with ⟨r, g1, e1⟩
        have hsp := gcpm_chg_offline_spec g a b h
        rw [hof] at hsp
        by_cases hneg : r < 0
        · rw [gcpm_chg_set_online_offline_fail g i a b c d r g1 e1 hr hs hd
            hof hneg]
          exact hsp.1
        · have hz : r = 0 := by
            rcases hsp.2.2 with h0 | h0
            · exact h0
            · simp only [EIOERR] at h0; omega
          have hclear := hsp.2.1 (by simpa using hz)
          cases c with
          | true =>
            rw [gcpm_chg_set_online_ok g i a b d r g1 e1 hr hs hd hof hneg]
            intro j hj
            rw [devOnlineAt_mkActive, devOnlineAt_updDev] at hj
            by_cases hj2 : (j : Int) = i
            · simpa using hj2
            · rw [if_neg hj2] at hj
              rw [hclear j] at hj
              exact absurd hj (by decide)
          | false =>
            rw [gcpm_chg_set_online_new_fail g i a b d r g1 e1 hr hs hd hof
              hneg]
            exact hsp.1



theorem gcpm_chg_ping_inv (g : Gcpm) (i : Int) (onl ok : Bool)
    (h : onlineInv g) : onlineInv (gcpm_chg_ping g i onl ok).2.1 := by
  unfold gcpm_chg_ping
  cases hd : getDev g i with
  | none => exact h
  | some d =>
    cases ok with
    | false => exact h
    | true =>
      intro j hj
      rw [show ((0 : Int),
          if true = true then
            updDev g i (fun d => { d with online := false }) else g,
          [Ev.SetOnlineProp i 0]).2.1 =
          updDev g i (fun d => { d with online := false }) from rfl] at hj
      rw [devOnlineAt_updDev] at hj
      by_cases hj2 : (j : Int) = i
      · rw [if_pos hj2, optOnline_map_online, Bool.and_false] at hj
        exact absurd hj (by decide)
      · rw [if_neg hj2] at hj
        exact h j hj

theorem gcpm_dc_enable_inv (g : Gcpm) (e ok : Bool) (h : onlineInv g) :
    onlineInv (gcpm_dc_enable g e ok).2.1 := by
  unfold gcpm_dc_enable
  cases ok with
  | false => exact h
  | true => exact onlineInv_congr g _ rfl rfl h

theorem gcpm_gpio_set_inv (g : Gcpm) (v : Bool) (h : onlineInv g) :
    onlineInv (gcpm_gpio_set g v).1 := by
  unfold gcpm_gpio_set
  by_cases hc : 0 ≤ g.dcen_gpio ∧ g.dcen_gpio_default = false
  · rw [if_pos hc]; exact onlineInv_congr g _ rfl rfl h
  · rw [if_neg hc]; exact h

theorem gcpm_dc_stop_body_inv (g : Gcpm) (f : Int) (o1 o2 o3 o4 : Bool)
    (h : onlineInv g) : onlineInv (gcpm_dc_stop_body g f o1 o2 o3 o4).2.1 := by
  unfold gcpm_dc_stop_body
  by_cases h1 : g.dc_state = DC_RUNNING ∨ g.dc_state = DC_PASSTHROUGH
  · rw [if_pos h1]
    rcases he : gcpm_dc_enable g false o1 with ⟨r1, g1, e1⟩
    have hi1 : onlineInv g1 := by
      have := gcpm_dc_enable_inv g false o1 h; rwa [he] at this
    dsimp only
    by_cases hr1 : r1 < 0
    · rw [if_pos hr1]; exact hi1
    · rw [if_neg hr1]
      rcases hs : gcpm_chg_set_online { g1 with dc_state := DC_ENABLE } 0
          o2 o3 o4 with ⟨r2, g2, e2⟩
      have hi2 : onlineInv g2 := by
        have := gcpm_chg_set_online_inv { g1 with dc_state := DC_ENABLE } 0
          o2 o3 o4 (onlineInv_congr g1 _ rfl rfl hi1)
        rwa [hs] at this
      dsimp only
      by_cases hr2 : r2 < 0
      · rw [if_pos hr2]; exact hi2
      · rw [if_neg hr2]; exact onlineInv_congr g2 _ rfl rfl hi2
  · rw [if_neg h1]
    by_cases h2 : g.dc_state = DC_ENABLE ∨ g.dc_state = DC_ENABLE_PASSTHROUGH
    · rw [if_pos h2]
      rcases hs : gcpm_chg_set_online g 0 o2 o3 o4 with ⟨r2, g2, e2⟩
      have hi2 : onlineInv g2 := by
        have := gcpm_chg_set_online_inv g 0 o2 o3 o4 h
        rwa [hs] at this
      dsimp only
      by_cases hr2 : r2 < 0
      · rw [if_pos hr2]; exact hi2
      · rw [if_neg hr2]; exact onlineInv_congr g2 _ rfl rfl hi2
    · rw [if_neg h2]; exact onlineInv_congr g _ rfl rfl h

theorem gcpm_dc_stop_inv (g : Gcpm) (f : Int) (o1 o2 o3 o4 : Bool)
    (h : onlineInv g) : onlineInv (gcpm_dc_stop g f o1 o2 o3 o4).2.1 := by
  unfold gcpm_dc_stop
  rcases hg0 : gcpm_gpio_set g false with ⟨g0, e0⟩
  have h0 : onlineInv g0 := by
    have := gcpm_gpio_set_inv g false h; rwa [hg0] at this
  rcases hb : gcpm_dc_stop_body g0 f o1 o2 o3 o4 with ⟨r, g1, e1⟩
  have h1 : onlineInv g1 := by
    have := gcpm_dc_stop_body_inv g0 f o1 o2 o3 o4 h0; rwa [hb] at this
  dsimp only
  rw [hb]
  exact h1

theorem gcpm_dc_start_inv (g : Gcpm) (i : Int)
    (o1 o2 o3 o4 o5 o6 o7 : Bool) (h : onlineInv g) :
    onlineInv (gcpm_dc_start g i o1 o2 o3 o4 o5 o6 o7).2.1 := by
  unfold gcpm_dc_start
  rcases hs : gcpm_chg_set_online g i o1 o2 o3 with ⟨r1, g1, e1⟩
  have hi1 : onlineInv g1 := by
    have := gcpm_chg_set_online_inv g i o1 o2 o3 h; rwa [hs] at this
  dsimp only
  by_cases hr1 : r1 < 0
  · rw [if_pos hr1]; exact hi1
  · rw [if_neg hr1]
    cases hact : gcpm_chg_get_active g1 with
    | none => exact hi1
    | some d =>
      by_cases h4 : o4 = false
      · rw [if_pos h4]; exact hi1
      · rw [if_neg h4]
        by_cases h5 : o5 = false
        · rw [if_pos h5]; exact hi1
        · rw [if_neg h5]
          by_cases h6 : o6 = false
          · rw [if_pos h6]; exact hi1
          · rw [if_neg h6]
            rcases hg : gcpm_gpio_set g1 true with ⟨g2, e2⟩
            have hi2 : onlineInv g2 := by
              have := gcpm_gpio_set_inv g1 true hi1; rwa [hg] at this
            rcases he : gcpm_dc_enable g2 true o7 with ⟨r3, g3, e3⟩
            have hi3 : onlineInv g3 := by
              have := gcpm_dc_enable_inv g2 true o7 hi2; rwa [he] at this
            dsimp only
            exact hi3

/-! ### Operation traces (claim C2) -/

/-- One locked arbiter operation on the source registry, with the oracle
results of its collaborator calls. -/
inductive GcpmOp
  | set_online (index : Int) (okEna okOnl okNew : Bool)
  | offline (okEna okOnl : Bool)
  | ping (index : Int) (ok : Bool)
  | dc_start (index : Int) (okEna okOnl okNew okFv okCc okIin okVote : Bool)
  | dc_stop (final_state : Int) (okVote okEna okOnl okNew : Bool)

def GcpmOp.step (g : Gcpm) : GcpmOp → Gcpm
  | .set_online i a b c => (gcpm_chg_set_online g i a b c).2.1
  | .offline a b => (gcpm_chg_offline g a b).2.1
  | .ping i ok => (gcpm_chg_ping g i false ok).2.1
  | .dc_start i a b c d e f v => (gcpm_dc_start g i a b c d e f v).2.1
  | .dc_stop fs v a b c => (gcpm_dc_stop g fs v a b c).2.1

def runOps (g : Gcpm) : List GcpmOp → Gcpm
  | [] => g
  | op :: ops => runOps (op.step g) ops

theorem step_inv (g : Gcpm) (op : GcpmOp) (h : onlineInv g) :
    onlineInv (op.step g) := by
  cases op with
  | set_online i a b c => exact gcpm_chg_set_online_inv g i a b c h
  | offline a b => exact (gcpm_chg_offline_spec g a b h).1
  | ping i ok => exact gcpm_chg_ping_inv g i false ok h
  | dc_start i a b c d e f v => exact gcpm_dc_start_inv g i a b c d e f v h
  | dc_stop fs v a b c => exact gcpm_dc_stop_inv g fs v a b c h

theorem runOps_inv (ops : List GcpmOp) (g : Gcpm) (h : onlineInv g) :
    onlineInv (runOps g ops) := by
  induction ops generalizing g with
  | nil => exact h
  | cons op ops ih => exact ih (op.step g) (step_inv g op h)

/-- Claim C2: from any state with no source online, after any sequence of
set_online / offline / ping / dc_start / dc_stop operations (with arbitrary
collaborator success or failure at every step) at most one charger device is
marked online. -/
theorem reachable_at_most_one_online (ops : List GcpmOp) (g0 : Gcpm)
    (h0 : ∀ i, devOnlineAt g0 i = false) :
    atMostOneOnline (runOps g0 ops) := by
  have hinv : onlineInv g0 := fun i hi => by
    rw [h0 i] at hi; exact absurd hi (by decide)
  have h2 := runOps_inv ops g0 hinv
  intro i j hi hj
  have e1 := h2 i hi
  have e2 := h2 j hj
  omega



/-- An initial registry state: two registered chargers, both offline, no
active source. -/
def gInit : Gcpm :=
  { gSelDefault with
    devs := [some ⟨false, false⟩, some ⟨false, false⟩]
    chg_psy_active := -1 }

theorem gInit_offline : ∀ i, devOnlineAt gInit i = false
  | 0 => rfl
  | 1 => rfl
  | (_ + 2) => rfl

theorem gInit_inv : onlineInv gInit := fun i hi => by
  rw [gInit_offline i] at hi; exact absurd hi (by decide)

/-- Claim C2 witness: the invariant theorem applied to a concrete trace that
onlines the DC charger and then tears down to the default charger. -/
theorem reachable_at_most_one_online_witness :
    atMostOneOnline (runOps gInit
      [GcpmOp.set_online 1 true true true,
       GcpmOp.dc_stop DC_DISABLED true true true true,
       GcpmOp.ping 0 true]) :=
  reachable_at_most_one_online _ gInit gInit_offline

theorem get_active_none_of_neg (g : Gcpm) (h : g.chg_psy_active = -1) :
    gcpm_chg_get_active g = none := by
  unfold gcpm_chg_get_active
  rw [if_pos h]

theorem get_active_eq_getDev (g : Gcpm) (h : ¬ g.chg_psy_active = -1) :
    gcpm_chg_get_active g = getDev g g.chg_psy_active := by
  unfold gcpm_chg_get_active
  rw [if_neg h]

/-- Claim C6: `gcpm_chg_set_online` returns -ERANGE on an out-of-range index
and -EINVAL on an in-range index with no registered device, in both cases
returning the state unchanged (and issuing no collaborator call); and on
partial failure (offline succeeded, onlining the new charger failed) it
records no active source and leaves zero devices online. -/
theorem set_online_error_paths (g : Gcpm) (i : Int) (a b : Bool)
    (hinv : onlineInv g)
    (hact : g.chg_psy_active = -1 ∨
      (getDev g g.chg_psy_active).isSome = true) :
    ((i < 0 ∨ g.chg_psy_count ≤ i) →
      ∀ c, gcpm_chg_set_online g i a b c = (-ERANGE, g, [])) ∧
    (¬(i < 0 ∨ g.chg_psy_count ≤ i) → getDev g i = none →
      ∀ c, gcpm_chg_set_online g i a b c = (-EINVAL, g, [])) ∧
    (¬(i < 0 ∨ g.chg_psy_count ≤ i) → (getDev g i).isSome = true →
      i ≠ g.chg_psy_active → a = true → b = true →
      (gcpm_chg_set_online g i a b false).1 = -EIOERR ∧
      (gcpm_chg_set_online g i a b false).2.1.chg_psy_active = -1 ∧
      ∀ j, devOnlineAt (gcpm_chg_set_online g i a b false).2.1 j = false) := by
  refine ⟨fun hr c => gcpm_chg_set_online_range g i a b c hr, ?_, ?_⟩
  · intro hr hd c
    have hs : i ≠ g.chg_psy_active := by
      intro he
      rcases hact with h1 | h1
      · omega
      · rw [← he, hd] at h1
        exact absurd h1 (by decide)
    exact gcpm_chg_set_online_nodev g i a b c hr hs hd
  · intro hr hdev hs ha hb
    subst ha; subst hb
    rcases hact with h1 | h1
    · have hofe := gcpm_chg_offline_none g true true
        (get_active_none_of_neg g h1)
      cases hd : getDev g i with
      | none => rw [hd] at hdev; exact absurd hdev (by decide)
      | some d =>
        rw [gcpm_chg_set_online_new_fail g i true true d 0 g [] hr hs hd hofe
          (by omega)]
        exact ⟨rfl, h1,
          no_online_of_get_active_none g hinv (get_active_none_of_neg g h1)⟩
    · have hA : ¬ g.chg_psy_active = -1 := by
        intro he
        rw [he] at h1
        unfold getDev at h1
        rw [if_pos (by omega)] at h1
        exact absurd h1 (by decide)
      cases hdA : getDev g g.chg_psy_active with
      | none => rw [hdA] at h1; exact absurd h1 (by decide)
      | some dA =>
        have hga : gcpm_chg_get_active g = some dA := by
          rw [get_active_eq_getDev g hA, hdA]
        have hofe := gcpm_chg_offline_ok g dA hga
        cases hd : getDev g i with
        | none => rw [hd] at hdev; exact absurd hdev (by decide)
        | some d =>
          rw [gcpm_chg_set_online_new_fail g i true true d 0 (offlineState g)
            _ hr hs hd hofe (by omega)]
          exact ⟨rfl, rfl, offlineState_clear g hinv dA hga⟩

/-- Claim C6 witness: the error-path theorem applied at concrete inputs: an
out-of-range index 5 and a partial failure onlining index 1. -/
theorem set_online_error_paths_witness :
    gcpm_chg_set_online gInit 5 true true true = (-ERANGE, gInit, []) ∧
    (gcpm_chg_set_online gInit 1 true true false).1 = -EIOERR ∧
    (gcpm_chg_set_online gInit 1 true true false).2.1.chg_psy_active = -1 :=
  ⟨(set_online_error_paths gInit 5 true true gInit_inv (Or.inl rfl)).1
      (by decide) true,
   ((set_online_error_paths gInit 1 true true gInit_inv (Or.inl rfl)).2.2
      (by decide) (by decide) (by decide) rfl rfl).1,
   ((set_online_error_paths gInit 1 true true gInit_inv (Or.inl rfl)).2.2
      (by decide) (by decide) (by decide) rfl rfl).2.1⟩



/-! ### PPS sessions and the selection work item -/

/-- Modelled from the spec: `pps_init_state` lives in google_dc_pps.c, which
is not under src/.  Per spec 4.3, entering EnablePassthrough "resets both
negotiator sessions to `None`" to re-enable detection, which is also what
the retry path of `gcpm_pps_wlc_dc_work` relies on. -/
def pps_init_state (p : PpsData) : PpsData := { p with stage := .PPS_NONE }

/-- `gcpm_pps_online` (google_cpm.c:472): reset the requested operating
point and both detection state machines. -/
def gcpm_pps_online (g : Gcpm) : Gcpm :=
  { g with
    out_ua := -1
    out_uv := -1
    tcpm_pps_data :=
      if g.tcpm_pps_data.pps_psy then pps_init_state g.tcpm_pps_data
      else g.tcpm_pps_data
    wlc_pps_data :=
      if g.wlc_pps_data.pps_psy then pps_init_state g.wlc_pps_data
      else g.wlc_pps_data
    pps_index := 0 }

/-- `gcpm_chg_dc_check_source` (google_cpm.c:458). -/
def gcpm_chg_dc_check_source (g : Gcpm) (index : Int) : Bool :=
  if g.taper_control then false
  else if g.tcpm_pps_data.stage = .PPS_NOTSUPP ∧
      g.wlc_pps_data.stage = .PPS_NOTSUPP then false
  else index = GCPM_INDEX_DC_ENABLE

/-- `gcpm_pps_data` (google_cpm.c:505): the PPS session selected by
`pps_index`. -/
def gcpm_pps_data (g : Gcpm) : Option PpsData :=
  if g.pps_index = PPS_INDEX_TCPM then some g.tcpm_pps_data
  else if g.pps_index = PPS_INDEX_WLC then some g.wlc_pps_data
  else none

/-- Modelled from the spec: `pps_prog_offline` lives in google_dc_pps.c,
which is not under src/.  It asks the source to return to a passive,
non-programmable state; after tear-down all PPS sessions are `Disabled`
(spec 8).  `ok` models the collaborator calls succeeding. -/
def pps_prog_offline (p : PpsData) (ok : Bool) : Int × PpsData :=
  if ok then (0, { p with stage := .PPS_DISABLED }) else (-EIOERR, p)

/-- `gcpm_pps_offline` (google_cpm.c:584): offline both sessions (failures
are only logged), clear `pps_index`, return 0. -/
def gcpm_pps_offline (g : Gcpm) (okTc okWl : Bool) : Int × Gcpm :=
  (0,
   { g with
     tcpm_pps_data :=
       if g.tcpm_pps_data.pps_psy then
         (pps_prog_offline g.tcpm_pps_data okTc).2
       else g.tcpm_pps_data
     wlc_pps_data :=
       if g.wlc_pps_data.pps_psy then
         (pps_prog_offline g.wlc_pps_data okWl).2
       else g.wlc_pps_data
     pps_index := 0 })

/-- The outputs of one `gcpm_chg_select_work` run: the new state, the
self-reschedule delay of the select work (when selection said retry-later)
and the delay with which the PPS work was (re)scheduled, if it was. -/
structure SelOut where
  g : Gcpm
  select_resched_ms : Option Int
  pps_sched_ms : Option Int

/-- The part of `gcpm_chg_select_work` after the taper and retry-later handling
(google_cpm.c:639-671). -/
def gcpm_chg_select_post (g : Gcpm) (index : Int) (dc_done : Bool)
    (now : Int) : SelOut :=
  if gcpm_chg_dc_check_source g index = false then
    if DC_IDLE < g.dc_state ∧ 0 < g.dc_index then
      { g := { g with
          dc_index := if dc_done then -1 else GCPM_DEFAULT_CHARGER }
        select_resched_ms := none, pps_sched_ms := some 0 }
    else { g := g, select_resched_ms := none, pps_sched_ms := none }
  else if g.dc_state = DC_DISABLED then
    { g := g, select_resched_ms := none, pps_sched_ms := none }
  else if g.dc_state = DC_IDLE then
    { g := { gcpm_pps_online g with
        dc_state := DC_ENABLE_PASSTHROUGH
        dc_index := index
        dc_start_time := now }
      select_resched_ms := none, pps_sched_ms := some 5000 }
  else { g := g, select_resched_ms := none, pps_sched_ms := none }

/-- `gcpm_chg_select_work` (google_cpm.c:607).  `vbatt` feeds the selection
(a negative value models a failed read), `now` is `get_boot_sec()`. -/
def gcpm_chg_select_work (g : Gcpm) (vbatt : Int) (now : Int) : SelOut :=
  if g.taper_control then
    gcpm_chg_select_post g GCPM_DEFAULT_CHARGER true now
  else if gcpm_chg_select g vbatt < 0 then
    { g := g, select_resched_ms := some 5000, pps_sched_ms := none }
  else gcpm_chg_select_post g (gcpm_chg_select g vbatt) false now

/-- A state in which both PPS negotiators have reported NotSupported while
the DC session controller is Idle. -/
def gC4 : Gcpm :=
  { gSelDC with
    dc_state := DC_IDLE, dc_index := 0, pps_index := 0, dc_vote := false
    tcpm_pps_data := ⟨true, .PPS_NOTSUPP⟩
    wlc_pps_data := ⟨true, .PPS_NOTSUPP⟩ }

/-- Claim C4 counterexample: with both sessions NotSupported and the DC
state Idle, a selection pass leaves the DC state Idle — it does not
transition to Disabled as the claim states (and the claim itself also says
EnablePassthrough is never entered, which does hold). -/
theorem select_work_both_notsupp_counterexample :
    (gcpm_chg_select_work gC4 4000000 7).g.dc_state = DC_IDLE ∧
    (gcpm_chg_select_work gC4 4000000 7).g.dc_state ≠ DC_DISABLED := by
  decide

/-- Under both-NotSupported the source check always fails. -/
theorem dc_check_source_both_notsupp (g : Gcpm) (index : Int)
    (ht : g.tcpm_pps_data.stage = .PPS_NOTSUPP)
    (hw : g.wlc_pps_data.stage = .PPS_NOTSUPP) :
    gcpm_chg_dc_check_source g index = false := by
  unfold gcpm_chg_dc_check_source
  rw [ht, hw]
  split_ifs with h1 h2
  · rfl
  · rfl
  · exact absurd ⟨rfl, rfl⟩ h2

/-- Claim C4 amended: when both PPS negotiator sessions are NotSupported and
the DC session controller is Idle, a selection pass leaves the whole state
unchanged — it stays Idle (it does not transition to Disabled), never enters
EnablePassthrough, resets no PPS session, assigns no dc_index and schedules
no negotiation work. -/
theorem select_work_both_notsupp_amended (g : Gcpm) (vbatt now : Int)
    (hstate : g.dc_state = DC_IDLE)
    (ht : g.tcpm_pps_data.stage = .PPS_NOTSUPP)
    (hw : g.wlc_pps_data.stage = .PPS_NOTSUPP) :
    (gcpm_chg_select_work g vbatt now).g = g ∧
    (gcpm_chg_select_work g vbatt now).pps_sched_ms = none := by
  have hpost : ∀ idx dcd, gcpm_chg_select_post g idx dcd now =
      { g := g, select_resched_ms := none, pps_sched_ms := none } := by
    intro idx dcd
    unfold gcpm_chg_select_post
    rw [dc_check_source_both_notsupp g idx ht hw]
    rw [if_pos rfl, if_neg (by rw [hstate]; omega)]
  unfold gcpm_chg_select_work
  split_ifs with h1 h2
  · rw [hpost]; exact ⟨rfl, rfl⟩
  · exact ⟨rfl, rfl⟩
  · rw [hpost]; exact ⟨rfl, rfl⟩

/-- Claim C4 amended witness: the amended theorem evaluated on the concrete
both-NotSupported Idle state. -/
theorem select_work_both_notsupp_amended_witness :
    (gcpm_chg_select_work gC4 4000000 7).g = gC4 :=
  (select_work_both_notsupp_amended gC4 4000000 7 rfl rfl rfl).1



/-! ### The combined per-tick PPS negotiation step (claim C9) -/

/-- Modelled from the spec: the per-session `pps_work` negotiation step is in
google_dc_pps.c, which is not under src/.  It advances the session state
machine and returns a recommended next-poll interval in milliseconds or a
negative error.  Its outcome enters the embedding as an oracle input: the
returned interval and the stage the session ends the step in. -/
structure StepRes where
  ui : Int
  stage : PpsStage
deriving DecidableEq, Repr

/-- `not_supported` counter of `gcpm_pps_work` (google_cpm.c:528). -/
def pps_sessions_not_supported (g : Gcpm) : Int :=
  (if g.tcpm_pps_data.stage = .PPS_NOTSUPP then 1 else 0) +
  (if g.wlc_pps_data.stage = .PPS_NOTSUPP then 1 else 0)

/-- The condition under which one session's step makes it the candidate
selection: its step ran (not NotSupported) and returned a non-negative
interval with the session in the Active stage. -/
def pps_step_selected (p : PpsData) (s : StepRes) : Bool :=
  if p.stage ≠ .PPS_NOTSUPP ∧ 0 ≤ s.ui ∧ s.stage = .PPS_ACTIVE then true
  else false

/-- The candidate `pps_index` computed by `gcpm_pps_work`: the wireless
block runs second, so its assignment wins when both sessions qualify. -/
def gcpm_pps_work_index (g : Gcpm) (tc wl : StepRes) : Int :=
  if pps_step_selected g.wlc_pps_data wl then PPS_INDEX_WLC
  else if pps_step_selected g.tcpm_pps_data tc then PPS_INDEX_TCPM
  else 0

/-- The stage updates performed by the two per-session step calls. -/
def gcpm_pps_work_stages (g : Gcpm) (tc wl : StepRes) : Gcpm :=
  { g with
    tcpm_pps_data :=
      if g.tcpm_pps_data.stage ≠ .PPS_NOTSUPP then
        { g.tcpm_pps_data with stage := tc.stage }
      else g.tcpm_pps_data
    wlc_pps_data :=
      if g.wlc_pps_data.stage ≠ .PPS_NOTSUPP then
        { g.wlc_pps_data with stage := wl.stage }
      else g.wlc_pps_data }

/-- `gcpm_pps_work` (google_cpm.c:528): run both session steps, return
-ENODEV when no source supports PPS, detect a previously selected source
going away, and record the candidate selection. -/
def gcpm_pps_work (g : Gcpm) (tc wl : StepRes) : Int × Gcpm :=
  if pps_sessions_not_supported g = PPS_INDEX_MAX then
    (-ENODEV, gcpm_pps_work_stages g tc wl)
  else if g.pps_index ≠ 0 ∧ gcpm_pps_work_index g tc wl = 0 then
    (-ENODEV,
     { gcpm_pps_work_stages g tc wl with
       pps_index := gcpm_pps_work_index g tc wl })
  else
    (0,
     { gcpm_pps_work_stages g tc wl with
       pps_index := gcpm_pps_work_index g tc wl })

theorem pps_work_index_eq_zero (g : Gcpm) (tc wl : StepRes) :
    gcpm_pps_work_index g tc wl = 0 ↔
      pps_step_selected g.tcpm_pps_data tc = false ∧
      pps_step_selected g.wlc_pps_data wl = false := by
  unfold gcpm_pps_work_index
  cases hw : pps_step_selected g.wlc_pps_data wl <;>
    cases ht : pps_step_selected g.tcpm_pps_data tc <;>
    simp [PPS_INDEX_WLC, PPS_INDEX_TCPM]

/-- A state with the wired session previously selected and Active and the
wireless session still negotiating. -/
def gC9 : Gcpm :=
  { gSelDC with
    dc_state := DC_ENABLE_PASSTHROUGH, pps_index := PPS_INDEX_TCPM
    tcpm_pps_data := ⟨true, .PPS_ACTIVE⟩
    wlc_pps_data := ⟨true, .PPS_AVAILABLE⟩ }

/-- Claim C9 counterexample: the wired session was the first to reach Active
(it is recorded as selected, pps_index = 1); on a tick where the wireless
session also reports Active the combined step re-records the wireless
session (pps_index = 2) instead of keeping the first-to-Active wired one,
while still returning 0. -/
theorem pps_work_selection_counterexample :
    gC9.pps_index = PPS_INDEX_TCPM ∧
    (gcpm_pps_work gC9 ⟨0, .PPS_ACTIVE⟩ ⟨0, .PPS_ACTIVE⟩).1 = 0 ∧
    (gcpm_pps_work gC9 ⟨0, .PPS_ACTIVE⟩ ⟨0, .PPS_ACTIVE⟩).2.pps_index =
      PPS_INDEX_WLC ∧
    (gcpm_pps_work gC9 ⟨0, .PPS_ACTIVE⟩ ⟨0, .PPS_ACTIVE⟩).2.pps_index ≠
      PPS_INDEX_TCPM := by
  decide

/-- Claim C9 amended: the combined step returns a negative abandon value
exactly when both sessions are NotSupported, or when a source had previously
been selected and neither session's step qualified it as Active in this tick
(step interval non-negative and stage Active); otherwise it returns 0 and
records the wireless session when it qualifies, else the wired session when
it qualifies, else 0 (still detecting) — on a tie the wireless session, not
the first to have reached Active, is recorded. -/
theorem pps_work_abandon_amended (g : Gcpm) (tc wl : StepRes) :
    ((gcpm_pps_work g tc wl).1 < 0 ↔
      (g.tcpm_pps_data.stage = .PPS_NOTSUPP ∧
        g.wlc_pps_data.stage = .PPS_NOTSUPP) ∨
      (g.pps_index ≠ 0 ∧ pps_step_selected g.tcpm_pps_data tc = false ∧
        pps_step_selected g.wlc_pps_data wl = false)) ∧
    (¬(g.tcpm_pps_data.stage = .PPS_NOTSUPP ∧
        g.wlc_pps_data.stage = .PPS_NOTSUPP) →
      (gcpm_pps_work g tc wl).1 = 0 ∨ (gcpm_pps_work g tc wl).1 = -ENODEV) ∧
    (¬(g.tcpm_pps_data.stage = .PPS_NOTSUPP ∧
        g.wlc_pps_data.stage = .PPS_NOTSUPP) →
      (gcpm_pps_work g tc wl).2.pps_index =
        (if pps_step_selected g.wlc_pps_data wl = true then PPS_INDEX_WLC
         else if pps_step_selected g.tcpm_pps_data tc = true then
           PPS_INDEX_TCPM
         else 0)) := by
  have hns : pps_sessions_not_supported g = PPS_INDEX_MAX ↔
      (g.tcpm_pps_data.stage = .PPS_NOTSUPP ∧
        g.wlc_pps_data.stage = .PPS_NOTSUPP) := by
    unfold pps_sessions_not_supported
    by_cases h1 : g.tcpm_pps_data.stage = .PPS_NOTSUPP <;>
      by_cases h2 : g.wlc_pps_data.stage = .PPS_NOTSUPP <;>
      simp [h1, h2, PPS_INDEX_MAX]
  unfold gcpm_pps_work
  by_cases hb : pps_sessions_not_supported g = PPS_INDEX_MAX
  · rw [if_pos hb]
    refine ⟨?_, ?_, ?_⟩
    · constructor
      · intro _; exact Or.inl (hns.mp hb)
      · intro _
        show (-ENODEV : Int) < 0
        norm_num
    · intro hc; exact absurd (hns.mp hb) hc
    · intro hc; exact absurd (hns.mp hb) hc
  · rw [if_neg hb]
    have hnb : ¬(g.tcpm_pps_data.stage = .PPS_NOTSUPP ∧
        g.wlc_pps_data.stage = .PPS_NOTSUPP) := fun hc => hb (hns.mpr hc)
    by_cases hl : g.pps_index ≠ 0 ∧ gcpm_pps_work_index g tc wl = 0
    · rw [if_pos hl]
      refine ⟨?_, fun _ => Or.inr rfl, fun _ => ?_⟩
      · simp only [show ((-ENODEV : Int), _).1 = -ENODEV from rfl]
        constructor
        · intro _
          exact Or.inr ⟨hl.1, (pps_work_index_eq_zero g tc wl).mp hl.2⟩
        · intro _; decide
      · unfold gcpm_pps_work_index
        rcases (pps_work_index_eq_zero g tc wl).mp hl.2 with ⟨h1, h2⟩
        simp [h1, h2]
    · rw [if_neg hl]
      refine ⟨?_, fun _ => Or.inl rfl, fun _ => ?_⟩
      · constructor
        · intro hc
          have hz : ¬ ((0 : Int) < 0) := by norm_num
          exact absurd hc hz
        · intro hc
          rcases hc with hc | hc
          · exact absurd hc hnb
          · exact absurd
              ⟨hc.1, (pps_work_index_eq_zero g tc wl).mpr ⟨hc.2.1, hc.2.2⟩⟩ hl
      · unfold gcpm_pps_work_index
        rfl



/-- Claim C9 amended witness: the amended characterization applied to the
concrete lost-source tick: the wired session was selected but neither step
qualifies a session, so the step returns a negative abandon value. -/
theorem pps_work_abandon_amended_witness :
    (gcpm_pps_work gC9 ⟨-1, .PPS_ACTIVE⟩ ⟨-1, .PPS_AVAILABLE⟩).1 < 0 :=
  (pps_work_abandon_amended gC9 ⟨-1, .PPS_ACTIVE⟩ ⟨-1, .PPS_AVAILABLE⟩).1.mpr
    (Or.inr (by decide))


/-! ### The PPS / DC work item `gcpm_pps_wlc_dc_work` (claims C1, C7) -/

/-- Oracle results for one run of `gcpm_pps_wlc_dc_work`: the two session
steps, the `pps_update_adapter` return, the `pps_check_online` answer, the
battery-voltage read of the in-passthrough selection check, the return of
the CHARGING_ENABLED watchdog write, and the success of each collaborator
set-property / vote / offline call. -/
structure WorkOrc where
  tc : StepRes
  wl : StepRes
  upd_adapter : Int
  check_online : Bool
  vbatt : Int
  chg_en_ret : Int
  okPing : Bool
  okEna : Bool
  okOnl : Bool
  okNew : Bool
  okFv : Bool
  okCc : Bool
  okIin : Bool
  okVote : Bool
  okOffTc : Bool
  okOffWl : Bool

/-- Outputs of one `gcpm_pps_wlc_dc_work` run: final state, the final
`pps_ui` value, the reschedule delay (the work reschedules itself only when
`pps_ui > 0`), whether the select work was tickled, and the collaborator
events issued. -/
structure WorkOut where
  g : Gcpm
  pps_ui : Int
  resched : Option Int
  select_sched : Bool
  evs : List Ev

/-- The `pps_dc_reschedule` exit: reschedule only with a positive delay. -/
def mkWorkOut (g : Gcpm) (pps_ui : Int) (sel : Bool) (evs : List Ev) :
    WorkOut :=
  { g := g, pps_ui := pps_ui
    resched := if 0 < pps_ui then some pps_ui else none
    select_sched := sel, evs := evs }

/-- `pps_ui` after a `pps_update_adapter` call returning `upd`
(errors are replaced by the error retry interval). -/
def pps_update_ui (upd : Int) : Int :=
  if upd < 0 then PPS_ERROR_RETRY_MS else upd

/-- The `else if (pps_ui > DC_ERROR_RETRY_MS)` clamp of the handover
failure path. -/
def clamp_error_retry (pu : Int) : Int :=
  if DC_ERROR_RETRY_MS < pu then DC_ERROR_RETRY_MS else pu

/-- Shallow embedding of `gcpm_pps_wlc_dc_work` (google_cpm.c:680).
`now` is `get_boot_sec()`; `elap = now - dc_start_time`. -/
def gcpm_pps_wlc_dc_work (g : Gcpm) (o : WorkOrc) (now : Int) : WorkOut :=
  if ¬ g.resume_complete ∨ ¬ g.init_complete then
    { g := g, pps_ui := -ENODEV, resched := none, select_sched := false
      evs := [] }
  else if g.dc_index ≤ 0 then
    if g.dc_state ≤ DC_IDLE then
      { g := g, pps_ui := -ENODEV, resched := none, select_sched := false
        evs := [] }
    else
      match gcpm_dc_stop g DC_DISABLED o.okVote o.okEna o.okOnl o.okNew with
      | (r, g1, e1) =>
        if r < 0 then mkWorkOut g1 DC_ERROR_RETRY_MS false e1
        else
          match gcpm_pps_offline g1 o.okOffTc o.okOffWl with
          | (r2, g2) =>
            if r2 < 0 then mkWorkOut g2 PPS_ERROR_RETRY_MS false e1
            else
              { g := if g2.dc_index = GCPM_DEFAULT_CHARGER
                     then { g2 with dc_state := DC_IDLE } else g2
                pps_ui := -ENODEV, resched := none, select_sched := false
                evs := e1 }
  else if g.dc_state = DC_PASSTHROUGH then
    if (match gcpm_pps_data g with
        | some _ => o.check_online
        | none => false) = false then
      mkWorkOut { g with dc_index := 0 } DC_ERROR_RETRY_MS false []
    else
      match gcpm_chg_get_active g with
      | none => mkWorkOut g DC_ERROR_RETRY_MS false []
      | some _ =>
        if o.chg_en_ret = 0 then
          match gcpm_chg_ping
              (updDev g g.chg_psy_active
                (fun d => { d with
                  charging_enabled := decide (g.pps_index ≠ 0) }))
              GCPM_DEFAULT_CHARGER false o.okPing with
          | (rp, gp, ep) =>
            mkWorkOut gp DC_RUN_DELAY_MS
              (decide (gcpm_chg_select g o.vbatt ≠ g.dc_index))
              (Ev.SetChargingEnabled g.chg_psy_active g.pps_index :: ep)
        else if o.chg_en_ret = -EBUSY ∨ o.chg_en_ret = -EAGAIN then
          mkWorkOut g DC_ERROR_RETRY_MS
            (decide (gcpm_chg_select g o.vbatt ≠ g.dc_index))
            [Ev.SetChargingEnabled g.chg_psy_active g.pps_index]
        else
          match gcpm_chg_set_online g GCPM_DEFAULT_CHARGER
              o.okEna o.okOnl o.okNew with
          | (rs, gs, es) =>
            if rs < 0 then
              mkWorkOut gs DC_ERROR_RETRY_MS
                (decide (gcpm_chg_select g o.vbatt ≠ g.dc_index))
                (Ev.SetChargingEnabled g.chg_psy_active g.pps_index :: es)
            else
              mkWorkOut gs 0
                (decide (gcpm_chg_select g o.vbatt ≠ g.dc_index))
                (Ev.SetChargingEnabled g.chg_psy_active g.pps_index :: es)
  else
    match gcpm_pps_work g o.tc o.wl with
    | (ret, g1) =>
      if ret < 0 then
        if now - g.dc_start_time < PPS_PROG_TIMEOUT_S then
          mkWorkOut (gcpm_pps_online g1) PPS_PROG_RETRY_MS false []
        else
          mkWorkOut { g1 with dc_index := 0 } PPS_ERROR_RETRY_MS false []
      else
        match gcpm_pps_data g1 with
        | none =>
          if now - g.dc_start_time < PPS_ACTIVE_TIMEOUT_S then
            mkWorkOut g1 PPS_ACTIVE_RETRY_MS false []
          else
            mkWorkOut { g1 with dc_index := 0 } PPS_ERROR_RETRY_MS false []
        | some _ =>
          if g1.dc_state = DC_ENABLE_PASSTHROUGH then
            match gcpm_chg_offline g1 o.okEna o.okOnl with
            | (ro, go, eo) =>
              if ro = 0 then
                match gcpm_dc_start go go.dc_index o.okEna o.okOnl o.okNew
                    o.okFv o.okCc o.okIin o.okVote with
                | (rd, gd, ed) =>
                  if rd = 0 then
                    mkWorkOut { gd with dc_state := DC_PASSTHROUGH }
                      DC_ENABLE_DELAY_MS false (eo ++ ed)
                  else
                    mkWorkOut gd
                      (clamp_error_retry (pps_update_ui o.upd_adapter))
                      false (eo ++ ed)
              else
                mkWorkOut go
                  (clamp_error_retry (pps_update_ui o.upd_adapter))
                  false eo
          else
            mkWorkOut g1 (pps_update_ui o.upd_adapter) false []



/-! ### Tear-down idempotence (claim C7) -/

/-- The state fields that the tear-down reasoning tracks across helper
calls: none of the registry operations change them except as proved. -/
def coreEq (x y : Gcpm) : Prop :=
  x.dc_state = y.dc_state ∧ x.dc_index = y.dc_index ∧
  x.init_complete = y.init_complete ∧ x.resume_complete = y.resume_complete ∧
  x.chg_psy_count = y.chg_psy_count ∧
  (getDev x 0).isSome = (getDev y 0).isSome

theorem coreEq_refl (x : Gcpm) : coreEq x x := ⟨rfl, rfl, rfl, rfl, rfl, rfl⟩

theorem coreEq_trans {x y z : Gcpm} (h1 : coreEq x y) (h2 : coreEq y z) :
    coreEq x z :=
  ⟨h1.1.trans h2.1, h1.2.1.trans h2.2.1, h1.2.2.1.trans h2.2.2.1,
   h1.2.2.2.1.trans h2.2.2.2.1, h1.2.2.2.2.1.trans h2.2.2.2.2.1,
   h1.2.2.2.2.2.trans h2.2.2.2.2.2⟩

theorem getDev_updDev_isSome (g : Gcpm) (i : Int) (f : ChgDev → ChgDev)
    (j : Int) : (getDev (updDev g i f) j).isSome = (getDev g j).isSome := by
  unfold getDev updDev updList
  dsimp only
  by_cases hj : j < 0
  · rw [if_pos hj, if_pos hj]
  · rw [if_neg hj, if_neg hj]
    by_cases hi : i < 0
    · rw [if_pos hi]
    · rw [if_neg hi]
      by_cases hij : i.toNat = j.toNat
      · rw [← hij]
        by_cases hl : i.toNat < g.devs.length
        · rw [getD_set_self _ _ _ _ hl]
          cases g.devs.getD i.toNat none <;> rfl
        · rw [set_len_le _ _ _ (by omega)]
      · rw [getD_set_ne _ _ _ _ _ hij]

theorem coreEq_updDev (g : Gcpm) (i : Int) (f : ChgDev → ChgDev) :
    coreEq (updDev g i f) g :=
  ⟨rfl, rfl, rfl, rfl, rfl, getDev_updDev_isSome g i f 0⟩

theorem coreEq_offlineState (g : Gcpm) : coreEq (offlineState g) g := by
  refine ⟨rfl, rfl, rfl, rfl, rfl, ?_⟩
  show (getDev (updDev (updDev g g.chg_psy_active
      (fun d => { d with charging_enabled := false }))
      g.chg_psy_active (fun d => { d with online := false })) 0).isSome =
    (getDev g 0).isSome
  rw [getDev_updDev_isSome, getDev_updDev_isSome]

theorem gcpm_chg_offline_ret_ok (g : Gcpm) :
    (gcpm_chg_offline g true true).1 = 0 := by
  cases hact : gcpm_chg_get_active g with
  | none => rw [gcpm_chg_offline_none g true true hact]
  | some d => rw [gcpm_chg_offline_ok g d hact]

theorem gcpm_chg_offline_core (g : Gcpm) (a b : Bool) :
    coreEq (gcpm_chg_offline g a b).2.1 g := by
  cases hact : gcpm_chg_get_active g with
  | none => rw [gcpm_chg_offline_none g a b hact]; exact coreEq_refl g
  | some d =>
    cases a with
    | false =>
      rw [gcpm_chg_offline_ena_fail g b d hact]; exact coreEq_refl g
    | true =>
      cases b with
      | false =>
        rw [gcpm_chg_offline_onl_fail g d hact]
        exact coreEq_updDev g g.chg_psy_active _
      | true =>
        rw [gcpm_chg_offline_ok g d hact]
        exact coreEq_offlineState g

theorem gcpm_chg_set_online_core (g : Gcpm) (i : Int) (a b c : Bool) :
    coreEq (gcpm_chg_set_online g i a b c).2.1 g := by
  by_cases hr : i < 0 ∨ g.chg_psy_count ≤ i
  · rw [gcpm_chg_set_online_range g i a b c hr]; exact coreEq_refl g
  · by_cases hs : i = g.chg_psy_active
    · rw [gcpm_chg_set_online_same g i a b c hr hs]; exact coreEq_refl g
    · cases hd : getDev g i with
      | none =>
        rw [gcpm_chg_set_online_nodev g i a b c hr hs hd]
        exact coreEq_refl g
      | some d =>
        rcases hof : gcpm_chg_offline g a b with ⟨r, g1, e1⟩
        have hc1 : coreEq g1 g := by
          have := gcpm_chg_offline_core g a b; rwa [hof] at this
        by_cases hneg : r < 0
        · rw [gcpm_chg_set_online_offline_fail g i a b c d r g1 e1 hr hs hd
            hof hneg]
          exact hc1
        · cases c with
          | true =>
            rw [gcpm_chg_set_online_ok g i a b d r g1 e1 hr hs hd hof hneg]
            refine coreEq_trans ?_ hc1
            unfold coreEq
            dsimp only
            exact ⟨rfl, rfl, rfl, rfl, rfl, getDev_updDev_isSome g1 i _ 0⟩
          | false =>
            rw [gcpm_chg_set_online_new_fail g i a b d r g1 e1 hr hs hd hof
              hneg]
            exact hc1

theorem gcpm_chg_set_online_zero_ret (g : Gcpm)
    (hcount : 0 < g.chg_psy_count) (hdef : (getDev g 0).isSome = true) :
    (gcpm_chg_set_online g 0 true true true).1 = 0 := by
  have hr : ¬((0:Int) < 0 ∨ g.chg_psy_count ≤ 0) := by omega
  by_cases hs : (0:Int) = g.chg_psy_active
  · rw [gcpm_chg_set_online_same g 0 true true true hr hs]
  · cases hd : getDev g 0 with
    | none => rw [hd] at hdef; exact absurd hdef (by decide)
    | some d =>
      rcases hof : gcpm_chg_offline g true true with ⟨r, g1, e1⟩
      have hr0 : r = 0 := by
        have := gcpm_chg_offline_ret_ok g; rwa [hof] at this
      rw [gcpm_chg_set_online_ok g 0 true true d r g1 e1 hr hs hd hof
        (by omega)]

theorem gcpm_gpio_set_core (g : Gcpm) (v : Bool) :
    coreEq (gcpm_gpio_set g v).1 g := by
  unfold gcpm_gpio_set
  split_ifs
  · exact ⟨rfl, rfl, rfl, rfl, rfl, rfl⟩
  · exact coreEq_refl g

theorem gcpm_dc_enable_ok (g : Gcpm) (e : Bool) :
    gcpm_dc_enable g e true =
      (0, { g with dc_vote := e }, [Ev.ModeVote e]) := by
  unfold gcpm_dc_enable
  simp

/-- With all collaborator calls succeeding, a registered default charger and
a non-empty registry, `gcpm_dc_stop` succeeds and sets `dc_state` to the
requested final state, touching neither `dc_index` nor the start-up flags. -/
theorem gcpm_dc_stop_success (g : Gcpm) (fs : Int)
    (hcount : 0 < g.chg_psy_count) (hdef : (getDev g 0).isSome = true) :
    (gcpm_dc_stop g fs true true true true).1 = 0 ∧
    (gcpm_dc_stop g fs true true true true).2.1.dc_state = fs ∧
    (gcpm_dc_stop g fs true true true true).2.1.dc_index = g.dc_index ∧
    (gcpm_dc_stop g fs true true true true).2.1.init_complete =
      g.init_complete ∧
    (gcpm_dc_stop g fs true true true true).2.1.resume_complete =
      g.resume_complete := by
  unfold gcpm_dc_stop
  rcases hg0 : gcpm_gpio_set g false with ⟨g0, e0⟩
  have hc0 : coreEq g0 g := by
    have := gcpm_gpio_set_core g false; rwa [hg0] at this
  dsimp only
  unfold gcpm_dc_stop_body
  by_cases h1 : g0.dc_state = DC_RUNNING ∨ g0.dc_state = DC_PASSTHROUGH
  · rw [if_pos h1, gcpm_dc_enable_ok g0 false]
    dsimp only
    rw [if_neg (by norm_num : ¬ ((0:Int) < 0))]
    rcases hs2 : gcpm_chg_set_online
        { g0 with dc_vote := false, dc_state := DC_ENABLE } 0 true true true
      with ⟨r2, g2, e2⟩
    have hr2 : r2 = 0 := by
      have := gcpm_chg_set_online_zero_ret
        { g0 with dc_vote := false, dc_state := DC_ENABLE }
        (by show 0 < g0.chg_psy_count
            rw [hc0.2.2.2.2.1]; exact hcount)
        (by show (getDev g0 0).isSome = true
            rw [hc0.2.2.2.2.2]; exact hdef)
      rwa [hs2] at this
    have hc2 : coreEq g2 { g0 with dc_vote := false, dc_state := DC_ENABLE } := by
      have := gcpm_chg_set_online_core
        { g0 with dc_vote := false, dc_state := DC_ENABLE } 0 true true true
      rwa [hs2] at this
    dsimp only
    rw [if_neg (by omega : ¬ r2 < 0)]
    refine ⟨rfl, rfl, ?_, ?_, ?_⟩
    · show g2.dc_index = g.dc_index
      rw [hc2.2.1]; exact hc0.2.1
    · show g2.init_complete = g.init_complete
      rw [hc2.2.2.1]; exact hc0.2.2.1
    · show g2.resume_complete = g.resume_complete
      rw [hc2.2.2.2.1]; exact hc0.2.2.2.1
  · rw [if_neg h1]
    by_cases h2 : g0.dc_state = DC_ENABLE ∨ g0.dc_state = DC_ENABLE_PASSTHROUGH
    · rw [if_pos h2]
      rcases hs2 : gcpm_chg_set_online g0 0 true true true with ⟨r2, g2, e2⟩
      have hr2 : r2 = 0 := by
        have := gcpm_chg_set_online_zero_ret g0
          (by rw [hc0.2.2.2.2.1]; exact hcount)
          (by rw [hc0.2.2.2.2.2]; exact hdef)
        rwa [hs2] at this
      have hc2 : coreEq g2 g0 := by
        have := gcpm_chg_set_online_core g0 0 true true true
        rwa [hs2] at this
      dsimp only
      rw [if_neg (by omega : ¬ r2 < 0)]
      refine ⟨rfl, rfl, ?_, ?_, ?_⟩
      · show g2.dc_index = g.dc_index
        rw [hc2.2.1]; exact hc0.2.1
      · show g2.init_complete = g.init_complete
        rw [hc2.2.2.1]; exact hc0.2.2.1
      · show g2.resume_complete = g.resume_complete
        rw [hc2.2.2.2.1]; exact hc0.2.2.2.1
    · rw [if_neg h2]
      exact ⟨rfl, rfl, hc0.2.1, hc0.2.2.1, hc0.2.2.2.1⟩



theorem gcpm_pps_offline_ret (g : Gcpm) (a b : Bool) :
    (gcpm_pps_offline g a b).1 = 0 := rfl

theorem gcpm_pps_offline_fields (g : Gcpm) (a b : Bool) :
    (gcpm_pps_offline g a b).2.dc_state = g.dc_state ∧
    (gcpm_pps_offline g a b).2.dc_index = g.dc_index ∧
    (gcpm_pps_offline g a b).2.init_complete = g.init_complete ∧
    (gcpm_pps_offline g a b).2.resume_complete = g.resume_complete :=
  ⟨rfl, rfl, rfl, rfl⟩

/-- A `gcpm_pps_wlc_dc_work` run on a state with `dc_index ≤ 0` and
`dc_state ≤ DC_IDLE` is spurious: it changes nothing and schedules
nothing. -/
theorem work_spurious (g : Gcpm) (o : WorkOrc) (now : Int)
    (hidx : g.dc_index ≤ 0) (hstate : g.dc_state ≤ DC_IDLE) :
    gcpm_pps_wlc_dc_work g o now =
      { g := g, pps_ui := -ENODEV, resched := none, select_sched := false
        evs := [] } := by
  unfold gcpm_pps_wlc_dc_work
  by_cases hg : ¬ g.resume_complete ∨ ¬ g.init_complete
  · rw [if_pos hg]
  · rw [if_neg hg, if_pos hidx, if_pos hstate]

/-- Claim C7: the tear-down pass of the PPS work item is idempotent.  With a
registered default charger and all collaborator calls succeeding, running
the work item twice from any started-up state with `dc_index ≤ 0` leaves
exactly the state the first run produced (the second run is a no-op: after
tear-down `dc_state` is Idle or Disabled and the spurious guard fires). -/
theorem teardown_idempotent (g : Gcpm) (o : WorkOrc) (now1 now2 : Int)
    (hinit : g.init_complete = true) (hres : g.resume_complete = true)
    (hidx : g.dc_index ≤ 0) (hcount : 0 < g.chg_psy_count)
    (hdef : (getDev g 0).isSome = true)
    (hv : o.okVote = true) (he : o.okEna = true) (ho : o.okOnl = true)
    (hn : o.okNew = true) :
    (gcpm_pps_wlc_dc_work (gcpm_pps_wlc_dc_work g o now1).g o now2).g =
      (gcpm_pps_wlc_dc_work g o now1).g := by
  by_cases hst : g.dc_state ≤ DC_IDLE
  · rw [work_spurious g o now1 hidx hst]
    dsimp only
    rw [work_spurious g o now2 hidx hst]
  · rcases hstop : gcpm_dc_stop g DC_DISABLED true true true true
      with ⟨r, g1, e1⟩
    have hsucc := gcpm_dc_stop_success g DC_DISABLED hcount hdef
    rw [hstop] at hsucc
    rcases hpo : gcpm_pps_offline g1 o.okOffTc o.okOffWl with ⟨r2, g2⟩
    have hpof := gcpm_pps_offline_fields g1 o.okOffTc o.okOffWl
    rw [hpo] at hpof
    have hr2 : r2 = 0 := by
      have := gcpm_pps_offline_ret g1 o.okOffTc o.okOffWl
      rw [hpo] at this
      exact this
    have hW : gcpm_pps_wlc_dc_work g o now1 =
        { g := if g2.dc_index = GCPM_DEFAULT_CHARGER
               then { g2 with dc_state := DC_IDLE } else g2
          pps_ui := -ENODEV, resched := none, select_sched := false
          evs := e1 } := by
      unfold gcpm_pps_wlc_dc_work
      rw [if_neg (by simp [hres, hinit]), if_pos hidx, if_neg hst,
        hv, he, ho, hn, hstop]
      dsimp only
      rw [if_neg (by omega : ¬ r < 0), hpo]
      dsimp only
      rw [if_neg (by omega : ¬ r2 < 0)]
    rw [hW]
    dsimp only
    by_cases hdi : g2.dc_index = GCPM_DEFAULT_CHARGER
    · rw [if_pos hdi]
      rw [work_spurious _ o now2
        (by show g2.dc_index ≤ 0
            rw [hpof.2.1, hsucc.2.2.1]; exact hidx)
        (by show (DC_IDLE : Int) ≤ DC_IDLE; omega)]
    · rw [if_neg hdi]
      rw [work_spurious _ o now2
        (by rw [hpof.2.1, hsucc.2.2.1]; exact hidx)
        (by rw [hpof.1, hsucc.2.1]; decide)]

/-- A started-up state in passthrough whose dc_index was already cleared,
about to be torn down. -/
def gTear : Gcpm := { gSelDC with dc_index := 0 }

/-- An all-success oracle. -/
def oAllOk : WorkOrc :=
  { tc := ⟨0, .PPS_NONE⟩, wl := ⟨0, .PPS_NONE⟩, upd_adapter := 5000
    check_online := true, vbatt := 4000000, chg_en_ret := 0
    okPing := true, okEna := true, okOnl := true, okNew := true
    okFv := true, okCc := true, okIin := true, okVote := true
    okOffTc := true, okOffWl := true }

/-- Claim C7 witness: idempotence evaluated on a concrete passthrough state
being torn down with every collaborator call succeeding. -/
theorem teardown_idempotent_witness :
    (gcpm_pps_wlc_dc_work (gcpm_pps_wlc_dc_work gTear oAllOk 3).g
        oAllOk 9).g =
      (gcpm_pps_wlc_dc_work gTear oAllOk 3).g :=
  teardown_idempotent gTear oAllOk 3 9 rfl rfl (by decide) (by decide)
    (by decide) rfl rfl rfl rfl



/-- A handover state: DC session in EnablePassthrough for the DC charger at
index 1, wired PPS session Active and selected, default charger 0 online and
active.  Demand, float voltage and session start time are parameters. -/
def gEp (cc fv t : Int) : Gcpm :=
  { devs := [some ⟨true, true⟩, some ⟨false, false⟩]
    chg_psy_count := 2, chg_psy_active := 0, force_active := -1
    dc_state := DC_ENABLE_PASSTHROUGH, dc_index := 1, pps_index := 1
    dc_start_time := t
    cc_max := cc, fv_uv := fv, out_ua := -1, out_uv := -1
    dc_limit_vbatt_low := 3400000, dc_limit_vbatt_min := 3600000
    dc_limit_vbatt_high := 4350000, dc_limit_vbatt_max := 4400000
    dc_limit_demand := 5000000
    taper_control := false, new_dc_limit := false, force_pps := false
    init_complete := true, resume_complete := true, dc_init_complete := true
    dcen_gpio := -1, dcen_gpio_default := false, gpio_value := false
    dc_vote := false
    tcpm_pps_data := ⟨true, .PPS_ACTIVE⟩
    wlc_pps_data := ⟨true, .PPS_NOTSUPP⟩ }

/-- The all-success oracle except that programming the target float voltage
fails; the wired session step reports Active, `pps_update_adapter`
returns `u`. -/
def oFvFail (u : Int) : WorkOrc :=
  { oAllOk with okFv := false, upd_adapter := u, tc := ⟨0, .PPS_ACTIVE⟩ }

/-- Claim C1 counterexample: in the EnablePassthrough handover the
controller onlines the DC source (index 1) before programming its
registers, as the event order shows: after a run in which programming the
target voltage failed, the DC source is already marked online and recorded
active even though the controller stayed in EnablePassthrough — the claim's
"the source has not been marked online" is false, and the claimed order
(program registers, vote, only then online) is not the code's order. -/
theorem handover_fv_fail_counterexample :
    (gcpm_pps_wlc_dc_work (gEp 3000000 4300000 0) (oFvFail 5000) 1).g.dc_state
        = DC_ENABLE_PASSTHROUGH ∧
    devOnlineAt
      (gcpm_pps_wlc_dc_work (gEp 3000000 4300000 0) (oFvFail 5000) 1).g 1 =
      true ∧
    (gcpm_pps_wlc_dc_work
      (gEp 3000000 4300000 0) (oFvFail 5000) 1).g.chg_psy_active = 1 ∧
    (gcpm_pps_wlc_dc_work (gEp 3000000 4300000 0) (oFvFail 5000) 1).evs =
      [Ev.SetChargingEnabled 0 0, Ev.SetOnlineProp 0 0,
       Ev.SetOnlineProp 1 1, Ev.SetFvUv 1 4300000] := by decide

/-- Claim C1 amended: during the EnablePassthrough handover the controller
offlines the active source, marks the DC source online (registry and device),
and then programs its registers; if programming the target voltage fails the
controller stays in EnablePassthrough and reschedules the work for a retry,
but the online marking has already been committed: the DC source remains
marked online and recorded as the active source.  The event list shows the
order: charging-disable and offline of the old source, online of the DC
source, then the failed float-voltage write. -/
theorem handover_fv_fail_amended (cc fv t u n : Int) (hu : 0 < u) :
    (gcpm_pps_wlc_dc_work (gEp cc fv t) (oFvFail u) n).g.dc_state =
      DC_ENABLE_PASSTHROUGH ∧
    (gcpm_pps_wlc_dc_work (gEp cc fv t) (oFvFail u) n).g.chg_psy_active = 1 ∧
    devOnlineAt (gcpm_pps_wlc_dc_work (gEp cc fv t) (oFvFail u) n).g 1 =
      true ∧
    (gcpm_pps_wlc_dc_work (gEp cc fv t) (oFvFail u) n).pps_ui =
      clamp_error_retry u ∧
    0 < (gcpm_pps_wlc_dc_work (gEp cc fv t) (oFvFail u) n).pps_ui ∧
    (gcpm_pps_wlc_dc_work (gEp cc fv t) (oFvFail u) n).resched =
      some (gcpm_pps_wlc_dc_work (gEp cc fv t) (oFvFail u) n).pps_ui ∧
    (gcpm_pps_wlc_dc_work (gEp cc fv t) (oFvFail u) n).evs =
      [Ev.SetChargingEnabled 0 0, Ev.SetOnlineProp 0 0,
       Ev.SetOnlineProp 1 1, Ev.SetFvUv 1 fv] := by
  have hnu : ¬ u < 0 := by omega
  have hX : 0 < clamp_error_retry (pps_update_ui u) := by
    unfold clamp_error_retry pps_update_ui DC_ERROR_RETRY_MS
      PPS_ERROR_RETRY_MS
    split_ifs <;> omega
  refine ⟨rfl, rfl, rfl, ?_, ?_, ?_, rfl⟩
  · show clamp_error_retry (pps_update_ui u) = clamp_error_retry u
    unfold pps_update_ui
    rw [if_neg hnu]
  · exact hX
  · show (if 0 < clamp_error_retry (pps_update_ui u)
        then some (clamp_error_retry (pps_update_ui u)) else none) =
      some (clamp_error_retry (pps_update_ui u))
    rw [if_pos hX]


/-- Claim C1 amended witness: the amended handover theorem evaluated at a
concrete demand, float voltage, session start and adapter interval. -/
theorem handover_fv_fail_amended_witness :
    (gcpm_pps_wlc_dc_work (gEp 3000000 4300000 0) (oFvFail 5000) 1).evs =
      [Ev.SetChargingEnabled 0 0, Ev.SetOnlineProp 0 0,
       Ev.SetOnlineProp 1 1, Ev.SetFvUv 1 4300000] :=
  (handover_fv_fail_amended 3000000 4300000 0 5000 1 (by decide)).2.2.2.2.2.2


/-! ### The power-supply property entry points (claim C8) -/

/-- Modelled from the spec: `GBMS_TAPER_CONTROL_OFF` is defined in
gbms_power_supply.h, which is not under src/; taper control is off when the
written value equals it. -/
abbrev GBMS_TAPER_CONTROL_OFF : Int := 0

/-- The property keys `gcpm_psy_set_property` / `gcpm_psy_get_property`
treat specially, plus `OTHER` for every remaining key. -/
inductive Psp
  | TAPER_CONTROL
  | CHARGE_DISABLE
  | ONLINE
  | VOLTAGE_MAX
  | CONSTANT_CHARGE_VOLTAGE_MAX
  | CONSTANT_CHARGE_CURRENT_MAX
  | CHARGE_CHARGER_STATE
  | OTHER
deriving DecidableEq, Repr

/-- Result of a set-property call: return code, new state, whether the
select work was scheduled, and which key (possibly remapped) was routed to
the active charger. -/
structure PropOut where
  ret : Int
  g : Gcpm
  select_sched : Bool
  routed : Option Psp

/-- The `switch (psp)` of `gcpm_psy_set_property` (google_cpm.c:910-947):
new state, `ta_check`, `route`, and the (possibly remapped) key. -/
def gcpm_psy_set_switch (g : Gcpm) (psp : Psp) (v : Int) :
    Gcpm × Bool × Bool × Psp :=
  match psp with
  | .TAPER_CONTROL =>
    ({ g with taper_control := decide (v ≠ GBMS_TAPER_CONTROL_OFF) },
     (decide (v ≠ GBMS_TAPER_CONTROL_OFF)) != g.taper_control, false, psp)
  | .CHARGE_DISABLE => (g, true, true, psp)
  | .ONLINE => (g, true, true, psp)
  | .VOLTAGE_MAX =>
    ({ g with fv_uv := v }, decide (g.fv_uv ≠ v), true,
     .CONSTANT_CHARGE_VOLTAGE_MAX)
  | .CONSTANT_CHARGE_VOLTAGE_MAX =>
    ({ g with fv_uv := v }, decide (g.fv_uv ≠ v), true, psp)
  | .CONSTANT_CHARGE_CURRENT_MAX =>
    ({ g with cc_max := v }, decide (g.cc_max ≠ v), true, psp)
  | _ => (g, false, true, psp)

/-- The body of `gcpm_psy_set_property` after the start-up gate:
`new_dc_limit` handling, select-work scheduling and routing to the active
charger.  `route_ret` is the oracle result of the routed set-property. -/
def gcpm_psy_set_property_body (g : Gcpm) (psp : Psp) (v : Int)
    (route_ret : Int) : PropOut :=
  match gcpm_psy_set_switch g psp v with
  | (g1, ta, route, psp1) =>
    match (if g1.new_dc_limit then ({ g1 with new_dc_limit := false }, true)
           else (g1, ta)) with
    | (g2, ta2) =>
      if route = false then
        { ret := 0, g := g2
          select_sched := g2.dc_init_complete && ta2, routed := none }
      else
        match gcpm_chg_get_active g2 with
        | some _ =>
          { ret := route_ret, g := g2
            select_sched := g2.dc_init_complete && ta2, routed := some psp1 }
        | none =>
          { ret := 0, g := g2
            select_sched := g2.dc_init_complete && ta2, routed := none }

/-- `gcpm_psy_set_property` (google_cpm.c:892): reject with -EAGAIN before
start-up completes, else run the locked body. -/
def gcpm_psy_set_property (g : Gcpm) (psp : Psp) (v : Int)
    (route_ret : Int) : PropOut :=
  if ¬ g.init_complete ∨ ¬ g.resume_complete then
    { ret := -EAGAIN, g := g, select_sched := false, routed := none }
  else gcpm_psy_set_property_body g psp v route_ret

/-- `gcpm_psy_get_property` (google_cpm.c:984): reject with -EAGAIN before
start-up completes; -ENODEV without an active charger; serve the packed
charger state locally and route everything else.  `chg_state` and
`route_val`/`route_ret` are oracle results of the collaborator reads. -/
def gcpm_psy_get_property (g : Gcpm) (psp : Psp) (chg_state route_val : Int)
    (route_ret : Int) : Int × Option Int :=
  if ¬ g.init_complete ∨ ¬ g.resume_complete then (-EAGAIN, none)
  else
    match gcpm_chg_get_active g with
    | none => (-ENODEV, none)
    | some _ =>
      match psp with
      | .CHARGE_CHARGER_STATE => (0, some chg_state)
      | _ => (route_ret, some route_val)

/-- Claim C8: for every property key and value, calling set-property or
get-property before start-up completed (init or resume not complete)
returns -EAGAIN and performs nothing: the state is returned unchanged, no
demand field is written, the select work is not scheduled and nothing is
routed to any source. -/
theorem psy_property_not_ready (g : Gcpm) (psp : Psp)
    (v route_ret chg_state route_val : Int)
    (h : ¬ (g.init_complete = true ∧ g.resume_complete = true)) :
    gcpm_psy_set_property g psp v route_ret =
      { ret := -EAGAIN, g := g, select_sched := false, routed := none } ∧
    gcpm_psy_get_property g psp chg_state route_val route_ret =
      (-EAGAIN, none) := by
  have hc : ¬ g.init_complete ∨ ¬ g.resume_complete := by tauto
  constructor
  · unfold gcpm_psy_set_property
    rw [if_pos hc]
  · unfold gcpm_psy_get_property
    rw [if_pos hc]

/-- A state that has not completed start-up. -/
def gNotReady : Gcpm := { gInit with init_complete := false }

/-- Claim C8 witness: the not-ready gate evaluated on a concrete
not-yet-initialized state and a demand write. -/
theorem psy_property_not_ready_witness :
    gcpm_psy_set_property gNotReady .CONSTANT_CHARGE_CURRENT_MAX 3000000 0 =
      { ret := -EAGAIN, g := gNotReady, select_sched := false
        routed := none } :=
  (psy_property_not_ready gNotReady .CONSTANT_CHARGE_CURRENT_MAX
    3000000 0 0 0 (by decide)).1



/-! ### max77779 scratch space driver (claim C10) -/

/-- The storage tags max77779_sp.c serves (gbms_storage.h tag codes are
FourCC values; only their identity matters here), plus `other` for any
unsupported tag. -/
inductive GbmsTag
  | RS32
  | RSBM
  | RSBR
  | SUFG
  | other (code : Nat)
deriving DecidableEq, Repr

abbrev RSBM_ADDR : Nat := 0
abbrev RSBR_ADDR : Nat := 4
abbrev SUFG_ADDR : Nat := 8
abbrev RS_TAG_LENGTH : Nat := 4
abbrev SU_TAG_LENGTH : Nat := 1
abbrev OPCODE_USER_SPACE_R_RES_LEN : Nat := 32
abbrev MAX77779_SP_DATA : Nat := 0x80

/-- Modelled from the spec: `MAX77779_SP_PAGE_CTRL` is defined in
max77779_regs.h, which is not under src/.  Its numeric value is immaterial
to the claims (it only names the page-select register in the I/O log). -/
abbrev MAX77779_SP_PAGE_CTRL : Nat := 0

/-- One regmap operation issued to the device. -/
inductive RegOp
  | wr (reg val : Nat)
  | rd (reg : Nat)
  | bulk_rd (reg count : Nat)
  | bulk_wr (reg : Nat) (vals : List Nat)
deriving DecidableEq, Repr

/-- Oracle results of the regmap calls a single scratch-space operation can
issue. -/
structure SpOrc where
  page_ret : Int
  read_res : Except Int Nat
  bulk_read_res : Except Int (List Nat)
  bulk_write_ret : Int
  write_ret : Int

/-- `max77779_sp_info` (max77779_sp.c:116): map a tag to its scratch
address, rejecting unsupported tags with -ENOENT and non-zero sizes above
the tag's capacity with -EINVAL. -/
def max77779_sp_info (tag : GbmsTag) (size : Nat) : Except Int Nat :=
  match tag with
  | .RS32 =>
    if size ≠ 0 ∧ OPCODE_USER_SPACE_R_RES_LEN < size then .error (-EINVAL)
    else .ok RSBM_ADDR
  | .RSBM =>
    if size ≠ 0 ∧ RS_TAG_LENGTH < size then .error (-EINVAL)
    else .ok RSBM_ADDR
  | .RSBR =>
    if size ≠ 0 ∧ RS_TAG_LENGTH < size then .error (-EINVAL)
    else .ok RSBR_ADDR
  | .SUFG =>
    if size ≠ 0 ∧ SU_TAG_LENGTH < size then .error (-EINVAL)
    else .ok SUFG_ADDR
  | .other _ => .error (-ENOENT)

/-- `max77779_sp_rd` (max77779_sp.c:45): page select then a bulk read, a
single 16-bit read with byte extraction, or nothing for a zero count.  The
returned list is the bytes written into the caller's buffer (`none` when
the buffer is untouched). -/
def max77779_sp_rd (addr count : Nat) (o : SpOrc) :
    Int × Option (List Nat) × List RegOp :=
  let page := addr / 256
  let offset := addr % 256
  let base := MAX77779_SP_DATA + (offset - offset % 2)
  if (2 < count ∧ count % 2 = 1) ∨ 0x7f < offset + count then
    (-ERANGE, none, [])
  else if o.page_ret < 0 then
    (o.page_ret, none, [RegOp.wr MAX77779_SP_PAGE_CTRL page])
  else if 2 < count then
    match o.bulk_read_res with
    | .ok vals =>
      (0, some (vals.take count),
       [RegOp.wr MAX77779_SP_PAGE_CTRL page, RegOp.bulk_rd base count])
    | .error e =>
      (e, none,
       [RegOp.wr MAX77779_SP_PAGE_CTRL page, RegOp.bulk_rd base count])
  else if count ≠ 0 then
    match o.read_res with
    | .error e =>
      (e, none, [RegOp.wr MAX77779_SP_PAGE_CTRL page, RegOp.rd base])
    | .ok tmp =>
      if count = 1 then
        if offset % 2 = 1 then
          (0, some [tmp / 256 % 256],
           [RegOp.wr MAX77779_SP_PAGE_CTRL page, RegOp.rd base])
        else
          (0, some [tmp % 256],
           [RegOp.wr MAX77779_SP_PAGE_CTRL page, RegOp.rd base])
      else
        (0, some [tmp % 256, tmp / 256 % 256],
         [RegOp.wr MAX77779_SP_PAGE_CTRL page, RegOp.rd base])
  else (0, none, [RegOp.wr MAX77779_SP_PAGE_CTRL page])

/-- `max77779_sp_wr` (max77779_sp.c:83): page select then a bulk write, a
read-modify-write of one byte, or a two-byte write (also taken for a zero
count, as in the C). -/
def max77779_sp_wr (buff : List Nat) (addr count : Nat) (o : SpOrc) :
    Int × List RegOp :=
  let page := addr / 256
  let offset := addr % 256
  let base := MAX77779_SP_DATA + (offset - offset % 2)
  if (2 < count ∧ count % 2 = 1) ∨ 0x7f < offset + count then (-ERANGE, [])
  else if o.page_ret < 0 then
    (o.page_ret, [RegOp.wr MAX77779_SP_PAGE_CTRL page])
  else if 2 < count then
    (o.bulk_write_ret,
     [RegOp.wr MAX77779_SP_PAGE_CTRL page,
      RegOp.bulk_wr base (buff.take count)])
  else if count = 1 then
    match o.read_res with
    | .error e => (e, [RegOp.wr MAX77779_SP_PAGE_CTRL page, RegOp.rd base])
    | .ok tmp0 =>
      (o.write_ret,
       [RegOp.wr MAX77779_SP_PAGE_CTRL page, RegOp.rd base,
        RegOp.wr base
          ((tmp0 % 4294967296 &&&
              (4294967295 - (255 <<< (offset % 2 * 8)))) |||
            ((buff.headD 0 % 256) <<< (offset % 2 * 8)))])
  else
    (o.write_ret,
     [RegOp.wr MAX77779_SP_PAGE_CTRL page,
      RegOp.wr base (buff.headD 0 % 256 + 256 * (buff.getD 1 0 % 256))])

/-- `max77779_sp_read` (max77779_sp.c:146). -/
def max77779_sp_read (tag : GbmsTag) (size : Nat) (o : SpOrc) :
    Int × Option (List Nat) × List RegOp :=
  match max77779_sp_info tag size with
  | .error e => (e, none, [])
  | .ok addr => max77779_sp_rd addr size o

/-- `max77779_sp_write` (max77779_sp.c:163). -/
def max77779_sp_write (tag : GbmsTag) (buff : List Nat) (size : Nat)
    (o : SpOrc) : Int × List RegOp :=
  match max77779_sp_info tag size with
  | .error e => (e, [])
  | .ok addr => max77779_sp_wr buff addr size o

/-- The per-tag capacity enforced by `max77779_sp_info`: 32 bytes for RS32,
4 for RSBM and RSBR, 1 for SUFG; `none` for unsupported tags. -/
def spTagCap : GbmsTag → Option Nat
  | .RS32 => some OPCODE_USER_SPACE_R_RES_LEN
  | .RSBM => some RS_TAG_LENGTH
  | .RSBR => some RS_TAG_LENGTH
  | .SUFG => some SU_TAG_LENGTH
  | .other _ => none

/-- Claim C10: scratch-space read and write with an unsupported tag return
-ENOENT, and with a supported tag but a non-zero size above the tag's
capacity return -EINVAL; in every such case no register operation is issued
and the caller's buffer is untouched. -/
theorem sp_error_no_io (tag : GbmsTag) (size : Nat) (buff : List Nat)
    (o : SpOrc)
    (h : spTagCap tag = none ∨
      (∃ cap, spTagCap tag = some cap ∧ size ≠ 0 ∧ cap < size)) :
    max77779_sp_read tag size o =
      ((if spTagCap tag = none then -ENOENT else -EINVAL), none, []) ∧
    max77779_sp_write tag buff size o =
      ((if spTagCap tag = none then -ENOENT else -EINVAL), []) := by
  have hinfo : max77779_sp_info tag size =
      .error (if spTagCap tag = none then -ENOENT else -EINVAL) := by
    cases tag <;> rcases h with h | ⟨cap, hc, hz, hlt⟩ <;>
      simp_all [max77779_sp_info, spTagCap, OPCODE_USER_SPACE_R_RES_LEN,
        RS_TAG_LENGTH, SU_TAG_LENGTH]
  unfold max77779_sp_read max77779_sp_write
  rw [hinfo]
  exact ⟨rfl, rfl⟩

/-- A benign regmap oracle for evaluating the scratch operations. -/
def spOrcTest : SpOrc :=
  { page_ret := 0, read_res := .ok 0, bulk_read_res := .ok []
    bulk_write_ret := 0, write_ret := 0 }

/-- Claim C10 witness: an unsupported tag read and an oversized RSBM write
evaluated concretely. -/
theorem sp_error_no_io_witness :
    max77779_sp_read (.other 77) 4 spOrcTest = (-ENOENT, none, []) ∧
    max77779_sp_write .RSBM [1, 2, 3, 4, 5] 5 spOrcTest = (-EINVAL, []) :=
  ⟨(sp_error_no_io (.other 77) 4 [] spOrcTest (Or.inl rfl)).1,
   (sp_error_no_io .RSBM 5 [1, 2, 3, 4, 5] spOrcTest
      (Or.inr ⟨4, rfl, by decide, by decide⟩)).2⟩


end GCPM
